import Mathlib

/-
Verification development for the sliderule-python io module
(src/sliderule/io.py).  The module serializes geospatial tables
(GeoDataFrames) to netCDF3 and HDF5 containers and reads them back.

Shallow embedding conventions:
  * numeric scalars are modelled as exact integers (Int); every property
    verified here concerns exactly representable integral values
    (delta_time seconds, int32 wrapping, copied lon/lat coordinates),
    where IEEE float64 arithmetic agrees with exact arithmetic;
  * a pandas/geopandas DataFrame is a list of named columns plus an index;
  * files are explicit structures (dimensions, variables or datasets,
    attribute lists);
  * fallible Python code (KeyError, AttributeError) is modelled with
    Except String.
-/

namespace SlideRule

/-- Element types of numpy arrays, as far as the io module inspects them. -/
inductive Dtype
  | int8 | int16 | int32 | int64
  | uint8 | uint16 | uint32 | uint64
  | float32 | float64
deriving DecidableEq, Repr

/-- The np.issubdtype(val, np.unsignedinteger) test of to_nc. -/
def Dtype.isUnsigned : Dtype → Bool
  | .uint8 | .uint16 | .uint32 | .uint64 => true
  | _ => false

/-- One table column: a homogeneous array with an element type. -/
structure Column where
  dtype : Dtype
  values : List Int
deriving DecidableEq, Repr

/-- One geometry point (shapely Point), exposing lon (x) and lat (y). -/
structure Point where
  lon : Int
  lat : Int
deriving DecidableEq, Repr, Inhabited

/-- A geopandas GeoDataFrame: an index, named data columns, and a
geometry column of points. -/
structure GeoDataFrame where
  index : List Int
  columns : List (String × Column)
  geometry : List Point
deriving DecidableEq, Repr

/-- A pandas DataFrame (after the geometry column has been flattened). -/
structure DataFrame where
  index : List Int
  columns : List (String × Column)
deriving DecidableEq, Repr

/-- Attribute values that the io module stores in files: strings, scalars,
and numeric lists (flag_values, polygon coordinate arrays). -/
inductive AttVal
  | str (s : String)
  | num (v : Int)
  | numList (l : List Int)
deriving DecidableEq, Repr

/-- An entry of the get_attributes dictionary: either a file-level scalar
attribute or a per-variable sub-dictionary. -/
inductive AttrEntry
  | fileAttr (v : AttVal)
  | varAttrs (l : List (String × AttVal))
deriving DecidableEq, Repr

/-- Python dict lookup on an association list (first match wins). -/
def listLookup {α : Type} (k : String) : List (String × α) → Option α
  | [] => none
  | (k2, v) :: rest => if k2 = k then some v else listLookup k rest

/-- The get_attributes function of io.py: file-level attributes followed by
per-variable metadata sub-dictionaries.  The only non-constant entry is
date_created, which holds the wall-clock time of the call; it is passed in
as the parameter now. -/
def get_attributes (now : String) : List (String × AttrEntry) :=
  [("featureType", .fileAttr (.str "trajectory")),
   ("title", .fileAttr (.str "ATLAS/ICESat-2 SlideRule Height")),
   ("reference", .fileAttr (.str "https://doi.org/10.5281/zenodo.5484048")),
   ("date_created", .fileAttr (.str now)),
   ("geospatial_lat_units", .fileAttr (.str "degrees_north")),
   ("geospatial_lon_units", .fileAttr (.str "degrees_east")),
   ("geospatial_ellipsoid", .fileAttr (.str "WGS84")),
   ("date_type", .fileAttr (.str "UTC")),
   ("time_type", .fileAttr (.str "CCSDS UTC-A")),
   ("segment_id", .varAttrs
     [("long_name", .str "Along-track segment ID number"),
      ("coordinates", .str "latitude longitude")]),
   ("delta_time", .varAttrs
     [("units", .str "seconds since 2018-01-01"),
      ("long_name", .str "Elapsed GPS seconds"),
      ("standard_name", .str "time"),
      ("calendar", .str "standard"),
      ("coordinates", .str "latitude longitude")]),
   ("latitude", .varAttrs
     [("units", .str "degrees_north"),
      ("long_name", .str "Latitude"),
      ("standard_name", .str "latitude"),
      ("valid_min", .num (-90)),
      ("valid_max", .num 90)]),
   ("longitude", .varAttrs
     [("units", .str "degrees_east"),
      ("long_name", .str "Longitude"),
      ("standard_name", .str "longitude"),
      ("valid_min", .num (-180)),
      ("valid_max", .num 180)]),
   ("h_mean", .varAttrs
     [("units", .str "meters"),
      ("long_name", .str "Height Mean"),
      ("coordinates", .str "latitude longitude")]),
   ("h_sigma", .varAttrs
     [("units", .str "meters"),
      ("long_name", .str "Height Error"),
      ("coordinates", .str "latitude longitude")]),
   ("rms_misfit", .varAttrs
     [("units", .str "meters"),
      ("long_name", .str "RMS of fit"),
      ("coordinates", .str "latitude longitude")]),
   ("dh_fit_dx", .varAttrs
     [("units", .str "meters/meters"),
      ("contentType", .str "modelResult"),
      ("long_name", .str "Along Track Slope"),
      ("coordinates", .str "latitude longitude")]),
   ("dh_fit_dy", .varAttrs
     [("units", .str "meters/meters"),
      ("long_name", .str "Across Track Slope"),
      ("coordinates", .str "latitude longitude")]),
   ("n_fit_photons", .varAttrs
     [("units", .str "1"),
      ("long_name", .str "Number of Photons in Fit"),
      ("coordinates", .str "latitude longitude")]),
   ("w_surface_window_final", .varAttrs
     [("units", .str "meters"),
      ("long_name", .str "Surface Window Width"),
      ("coordinates", .str "latitude longitude")]),
   ("h_robust_sprd", .varAttrs
     [("units", .str "meters"),
      ("long_name", .str "Robust Spread"),
      ("coordinates", .str "latitude longitude")]),
   ("cycle", .varAttrs
     [("long_name", .str "Orbital cycle"),
      ("coordinates", .str "latitude longitude")]),
   ("rgt", .varAttrs
     [("long_name", .str "Reference Ground Track"),
      ("coordinates", .str "latitude longitude")]),
   ("gt", .varAttrs
     [("long_name", .str "Ground track identifier"),
      ("flag_values", .numList [10, 20, 30, 40, 50, 60]),
      ("flag_meanings", .str "GT1L, GT1R, GT2L, GT2R, GT3L, GT3R"),
      ("valid_min", .num 10),
      ("valid_max", .num 60)]),
   ("spot", .varAttrs
     [("long_name", .str "ATLAS spot number"),
      ("coordinates", .str "latitude longitude"),
      ("valid_min", .num 1),
      ("valid_max", .num 6)]),
   ("pflags", .varAttrs
     [("long_name", .str "Processing Flags"),
      ("coordinates", .str "latitude longitude"),
      ("flag_values", .numList [0, 1, 2, 4]),
      ("flag_meanings", .str
        "valid, spread too short, too few photons, max iterations reached"),
      ("valid_min", .num 0),
      ("valid_max", .num 4)])]

/-- The coordinates function of io.py: split a polygon (list of records
with lon and lat fields) into parallel x and y sequences, in input order. -/
def coordinates (polygon : List Point) : List Int × List Int :=
  (polygon.map (·.lon), polygon.map (·.lat))

/-- The ten recognized sliderule processing-parameter names (SRparams). -/
def SRparams : List String :=
  ["H_min_win", "atl08_class", "ats", "cnf", "cnt", "len",
   "maxi", "res", "sigma_r_max", "srt"]

/-- File-level attribute lookup in the schema.  In the source this is a
plain dict access on keys that are always present; the default branch is
never reached on the keys the module uses. -/
def fileAttrD (a : List (String × AttrEntry)) (k : String) : AttVal :=
  match listLookup k a with
  | some (.fileAttr v) => v
  | _ => .str ""

/-- Per-variable attribute lookup, attributes[key].items().  A missing key
raises KeyError; a key bound to a file-level string raises AttributeError
on .items(). -/
def getVarAttrs (a : List (String × AttrEntry)) (k : String) :
    Except String (List (String × AttVal)) :=
  match listLookup k a with
  | some (.varAttrs l) => .ok l
  | some (.fileAttr _) => .error ("AttributeError: " ++ k)
  | none => .error ("KeyError: " ++ k)

/-- Total version of getVarAttrs used to describe successful results. -/
def varAttrsOf (a : List (String × AttrEntry)) (k : String) :
    List (String × AttVal) :=
  match listLookup k a with
  | some (.varAttrs l) => l
  | _ => []

/-- The try/except parameter-attribute loop shared by the three writers:
for each recognized parameter name, attach it when the parameters mapping
is present and binds that name; silently skip otherwise. -/
def paramAttrs (parameters : Option (List (String × AttVal))) :
    List (String × AttVal) :=
  match parameters with
  | none => []
  | some ps => SRparams.filterMap (fun p => (listLookup p ps).map (fun v => (p, v)))

/-- Attribute name written for polygon i, x coordinates. -/
def polyXName (i : Nat) : String := "poly" ++ Nat.repr i ++ "_x"

/-- Attribute name written for polygon i, y coordinates. -/
def polyYName (i : Nat) : String := "poly" ++ Nat.repr i ++ "_y"

/-- The region-attribute loop shared by the three writers, with the running
polygon counter made explicit. -/
def polyAttrsFrom (i : Nat) : List (List Point) → List (String × AttVal)
  | [] => []
  | poly :: rest =>
      (polyXName i, .numList (coordinates poly).1) ::
      (polyYName i, .numList (coordinates poly).2) ::
      polyAttrsFrom (i + 1) rest

/-- Region attributes for a full region list (counter starts at 0). -/
def polyAttrs (regions : List (List Point)) : List (String × AttVal) :=
  polyAttrsFrom 0 regions

/-- The file-level attribute block written by to_nc and write_h5py. -/
def baseFileAttrs (a : List (String × AttrEntry)) : List (String × AttVal) :=
  [("featureType", fileAttrD a "featureType"),
   ("title", fileAttrD a "title"),
   ("reference", fileAttrD a "reference"),
   ("date_created", fileAttrD a "date_created"),
   ("geospatial_lat_units", fileAttrD a "geospatial_lat_units"),
   ("geospatial_lon_units", fileAttrD a "geospatial_lon_units"),
   ("geospatial_ellipsoid", fileAttrD a "geospatial_ellipsoid"),
   ("date_type", fileAttrD a "date_type"),
   ("time_type", fileAttrD a "time_type")]

/-- The root attribute block written by write_pytables (TITLE holds the
title entry; featureType is not written on this path). -/
def basePTAttrs (a : List (String × AttrEntry)) : List (String × AttVal) :=
  [("TITLE", fileAttrD a "title"),
   ("reference", fileAttrD a "reference"),
   ("date_created", fileAttrD a "date_created"),
   ("geospatial_lat_units", fileAttrD a "geospatial_lat_units"),
   ("geospatial_lon_units", fileAttrD a "geospatial_lon_units"),
   ("geospatial_ellipsoid", fileAttrD a "geospatial_ellipsoid"),
   ("date_type", fileAttrD a "date_type"),
   ("time_type", fileAttrD a "time_type")]

/-- pandas column assignment df[k] = c: replace the column in place when
the name exists, append it otherwise. -/
def dfSet (df : List (String × Column)) (k : String) (c : Column) :
    List (String × Column) :=
  if df.any (fun p => p.1 = k) then
    df.map (fun p => if p.1 = k then (k, c) else p)
  else
    df ++ [(k, c)]

/-- The DataFrame built by every writer entry point: drop the geometry
column, then append latitude (geometry y) and longitude (geometry x). -/
def dfOf (gdf : GeoDataFrame) : List (String × Column) :=
  dfSet
    (dfSet gdf.columns "latitude" ⟨.float64, gdf.geometry.map (·.lat)⟩)
    "longitude" ⟨.float64, gdf.geometry.map (·.lon)⟩

/-- numpy astype(np.int32): wrap an integer into the signed 32-bit range. -/
def wrapInt32 (v : Int) : Int := (v + 2 ^ 31) % 2 ^ 32 - 2 ^ 31

/-- One netCDF variable: element type, data, variable-level attributes. -/
structure NCVar where
  dtype : Dtype
  values : List Int
  attrs : List (String × AttVal)
deriving DecidableEq, Repr

/-- A classic netCDF3 file as to_nc populates it. -/
structure NCFile where
  dims : List (String × Nat)
  vars : List (String × NCVar)
  attrs : List (String × AttVal)
deriving DecidableEq, Repr

/-- Monadic map over Except, written out so that proofs can recurse on it.
This is the for-loop of the writers collecting created variables. -/
def exceptMapM {α β : Type} (g : α → Except String β) :
    List α → Except String (List β)
  | [] => .ok []
  | x :: xs =>
      match g x with
      | .error e => .error e
      | .ok y =>
          match exceptMapM g xs with
          | .error e => .error e
          | .ok ys => .ok (y :: ys)

/-- The body of the variable loop of to_nc: unsigned columns are created
as int32 variables holding the downcast data, all others verbatim; the
schema entry for the column name supplies the variable attributes (a
missing entry raises). -/
def ncVarOf (a : List (String × AttrEntry)) (p : String × Column) :
    Except String (String × NCVar) :=
  match getVarAttrs a p.1 with
  | .error e => .error e
  | .ok va =>
      if p.2.dtype.isUnsigned then
        .ok (p.1, ⟨.int32, p.2.values.map wrapInt32, va⟩)
      else
        .ok (p.1, ⟨p.2.dtype, p.2.values, va⟩)

/-- The to_nc writer of io.py. -/
def to_nc (gdf : GeoDataFrame) (parameters : Option (List (String × AttVal)))
    (regions : List (List Point)) (now : String) : Except String NCFile :=
  let attributes := get_attributes now
  let df := dfOf gdf
  match listLookup "delta_time" df with
  | none => .error "KeyError: delta_time"
  | some dtc =>
      match exceptMapM (ncVarOf attributes) df with
      | .error e => .error e
      | .ok ncvs =>
          .ok { dims := [("delta_time", dtc.values.length)]
                vars := ncvs
                attrs := baseFileAttrs attributes ++ paramAttrs parameters
                          ++ polyAttrs regions }

/-- Days from 1970-01-01 to the given proleptic Gregorian civil date
(the standard era-based civil calendar computation). -/
def daysFromCivil (y : Int) (m : Nat) (d : Nat) : Int :=
  let y2 : Int := if m ≤ 2 then y - 1 else y
  let era : Int := (if 0 ≤ y2 then y2 else y2 - 399) / 400
  let yoe : Int := y2 - era * 400
  let mp : Nat := (m + 9) % 12
  let doy : Int := ((153 * mp + 2) / 5 : Nat) + d - 1
  let doe : Int := yoe * 365 + yoe / 4 - yoe / 100 + doy
  era * 146097 + doe - 719468

/-- A numpy datetime64 value in nanoseconds since 1970-01-01T00:00:00. -/
def datetime64ns (y : Int) (m d : Nat) : Int :=
  daysFromCivil y m d * 86400 * 1000000000

/-- The ATLAS standard data product epoch used by both read paths:
np.datetime64(datetime.datetime(2018, 1, 1)). -/
def atlas_sdp_epoch : Int := datetime64ns 2018 1 1

/-- Timestamp reconstruction shared by from_nc and read_h5py:
epoch plus delta_time seconds converted to nanoseconds. -/
def reconstructTime (v : Int) : Int := atlas_sdp_epoch + v * 1000000000

/-- The row permutation performed by sort_index: a stable sort of row
positions by the time value at each position. -/
def sortPerm (time : List Int) : List Nat :=
  List.insertionSort (fun i j => time.getD i 0 ≤ time.getD j 0)
    (List.range time.length)

/-- Apply a row permutation to a column of values. -/
def applyPerm (perm : List Nat) (l : List Int) : List Int :=
  perm.map (fun i => l.getD i 0)

/-- Apply a row permutation to the geometry column. -/
def applyPermP (perm : List Nat) (l : List Point) : List Point :=
  perm.map (fun i => l.getD i default)

/-- Both readers run val[:].squeeze() on every variable: numpy squeeze
collapses a one-element axis, so a single-row variable becomes a 0-d
scalar.  This predicate records whether the squeezed array is 0-d; the
value itself is retained in the list representation. -/
def squeezedToScalar (l : List Int) : Bool :=
  match l with
  | [_] => true
  | _ => false

/-- The shared tail of from_nc and read_h5py: every variable has been read
through val[:].squeeze(); build the time column from delta_time, build
geometry from longitude and latitude and delete those two columns,
assemble the frame, set time as the index and sort by it.  A one-row file
squeezes every variable to a 0-d scalar: points_from_xy cannot iterate
0-d longitude and latitude arrays, and the DataFrame constructor rejects
any remaining 0-d column, so the read raises instead of returning. -/
def assembleGdf (ncin : List (String × Column)) : Except String GeoDataFrame :=
  match listLookup "delta_time" ncin with
  | none => .error "KeyError: delta_time"
  | some dtc =>
      let time := dtc.values.map reconstructTime
      match listLookup "longitude" ncin with
      | none => .error "KeyError: longitude"
      | some lonc =>
          match listLookup "latitude" ncin with
          | none => .error "KeyError: latitude"
          | some latc =>
              if squeezedToScalar lonc.values || squeezedToScalar latc.values then
                .error "TypeError: iteration over a 0-d array"
              else
                let geometry :=
                  List.zipWith (fun x y => Point.mk x y) lonc.values latc.values
                let cols := ncin.filter
                  (fun p => decide (¬(p.1 = "longitude" ∨ p.1 = "latitude")))
                if cols.any (fun p => squeezedToScalar p.2.values) then
                  .error "ValueError: Per-column arrays must each be 1-dimensional"
                else
                  let perm := sortPerm time
                  .ok { index := applyPerm perm time
                        columns := cols.map
                          (fun p => (p.1, ⟨p.2.dtype, applyPerm perm p.2.values⟩))
                        geometry := applyPermP perm geometry }

/-- The from_nc reader of io.py.  Each variable is read as
val[:].squeeze(), with big-endian storage byte-swapped to native order;
neither step changes numeric values, so on the value level every variable
is read back verbatim and the squeeze is accounted for in assembleGdf by
the 0-d checks. -/
def from_nc (f : NCFile) : Except String GeoDataFrame :=
  assembleGdf (f.vars.map (fun p => (p.1, ⟨p.2.dtype, p.2.values⟩)))

/-- A pytables HDF5 file as write_pytables populates it: the DataFrame is
stored whole (index and columns) as the sliderule_segments table node,
losslessly, and root attributes are appended afterwards. -/
structure PTFile where
  dfIndex : List Int
  dfColumns : List (String × Column)
  rootAttrs : List (String × AttVal)
deriving DecidableEq, Repr

/-- The write_pytables writer: df.to_hdf stores the whole DataFrame, then
the file is reopened and root attributes are attached (TITLE block,
present parameters, region polygons). -/
def write_pytables (df : DataFrame) (attributes : List (String × AttrEntry))
    (parameters : Option (List (String × AttVal)))
    (regions : List (List Point)) : PTFile :=
  { dfIndex := df.index
    dfColumns := df.columns
    rootAttrs := basePTAttrs attributes ++ paramAttrs parameters
                   ++ polyAttrs regions }

/-- The read_pytables reader: load the stored DataFrame back, rebuild
geometry from the longitude and latitude columns, drop those columns.
No timestamp index is rebuilt and no sorting happens on this path. -/
def read_pytables (f : PTFile) : Except String GeoDataFrame :=
  match listLookup "longitude" f.dfColumns with
  | none => .error "KeyError: longitude"
  | some lonc =>
      match listLookup "latitude" f.dfColumns with
      | none => .error "KeyError: latitude"
      | some latc =>
          .ok { index := f.dfIndex
                columns := f.dfColumns.filter
                  (fun p => decide (¬(p.1 = "latitude" ∨ p.1 = "longitude")))
                geometry := List.zipWith (fun x y => Point.mk x y)
                  lonc.values latc.values }

/-- One h5py dataset: element type, data (gzip compression is lossless so
values are stored verbatim), dataset-level attributes. -/
structure H5Dataset where
  dtype : Dtype
  values : List Int
  attrs : List (String × AttVal)
deriving DecidableEq, Repr

/-- An HDF5 file as write_h5py populates it. -/
structure H5File where
  datasets : List (String × H5Dataset)
  attrs : List (String × AttVal)
deriving DecidableEq, Repr

/-- The body of the per-column loop of write_h5py: create a dataset with
the column data and dtype verbatim, attach the schema entry for the
column name as dataset attributes (a missing entry raises KeyError). -/
def h5DatasetOf (a : List (String × AttrEntry)) (p : String × Column) :
    Except String (String × H5Dataset) :=
  match getVarAttrs a p.1 with
  | .error e => .error e
  | .ok va => .ok (p.1, ⟨p.2.dtype, p.2.values, va⟩)

/-- The write_h5py writer: the delta_time dataset is created first and made
the dimension scale, every other column becomes its own dataset, then the
file-level attribute blocks are attached. -/
def write_h5py (df : DataFrame) (attributes : List (String × AttrEntry))
    (parameters : Option (List (String × AttVal)))
    (regions : List (List Point)) : Except String H5File :=
  match listLookup "delta_time" df.columns with
  | none => .error "KeyError: delta_time"
  | some dtc =>
      match getVarAttrs attributes "delta_time" with
      | .error e => .error e
      | .ok dta =>
          match exceptMapM (h5DatasetOf attributes)
              (df.columns.filter (fun p => decide (p.1 ≠ "delta_time"))) with
          | .error e => .error e
          | .ok rest =>
              .ok { datasets :=
                      ("delta_time", ⟨dtc.dtype, dtc.values, dta⟩) :: rest
                    attrs := baseFileAttrs attributes ++ paramAttrs parameters
                              ++ polyAttrs regions }

/-- The read_h5py reader: load every dataset as val[:].squeeze(), then
rebuild the time index and geometry and sort, exactly as from_nc does
(including the 0-d collapse of one-row datasets, handled in assembleGdf). -/
def read_h5py (f : H5File) : Except String GeoDataFrame :=
  assembleGdf (f.datasets.map (fun p => (p.1, ⟨p.2.dtype, p.2.values⟩)))

/-- A hierarchical (HDF5) file written by either driver. -/
inductive HFile
  | pt (f : PTFile)
  | h5 (f : H5File)
deriving DecidableEq, Repr

/-- str.lower(), written over the character list so that it evaluates by
kernel reduction. -/
def charLower (c : Char) : Char :=
  if 'A' ≤ c ∧ c ≤ 'Z' then Char.ofNat (c.toNat + 32) else c

/-- Python str.lower() for the ASCII format and driver tokens. -/
def strLower (s : String) : String := ⟨s.data.map charLower⟩

/-- The to_hdf entry point: flatten geometry, then dispatch on the driver
token; an unrecognized driver silently writes nothing. -/
def to_hdf (gdf : GeoDataFrame) (driver : String)
    (parameters : Option (List (String × AttVal)))
    (regions : List (List Point)) (now : String) :
    Except String (Option HFile) :=
  let attributes := get_attributes now
  let df : DataFrame := ⟨gdf.index, dfOf gdf⟩
  if strLower driver = "pytables" then
    .ok (some (.pt (write_pytables df attributes parameters regions)))
  else if strLower driver = "h5py" then
    (write_h5py df attributes parameters regions).map (fun f => some (.h5 f))
  else
    .ok none

/-- The from_hdf entry point: dispatch on the driver token; an
unrecognized driver silently returns nothing.  Handing a file written by
the other driver to a reader fails in the underlying library. -/
def from_hdf (file : HFile) (driver : String) :
    Except String (Option GeoDataFrame) :=
  if strLower driver = "pytables" then
    match file with
    | .pt f => (read_pytables f).map some
    | .h5 _ => .error "KeyError: No object named sliderule_segments"
  else if strLower driver = "h5py" then
    match file with
    | .h5 f => (read_h5py f).map some
    | .pt _ => .error "KeyError: delta_time"
  else
    .ok none

/-- Any file one of the writers can produce. -/
inductive OutFile
  | nc (f : NCFile)
  | hdf (f : HFile)
deriving DecidableEq, Repr

/-- The to_file format dispatcher: hdf/hdf5/h5 route to the hierarchical
writer, netcdf/nc to the classic writer, anything else is a silent no-op
producing no file. -/
def to_file (gdf : GeoDataFrame) (format driver : String)
    (parameters : Option (List (String × AttVal)))
    (regions : List (List Point)) (now : String) :
    Except String (Option OutFile) :=
  if strLower format ∈ (["hdf", "hdf5", "h5"] : List String) then
    (to_hdf gdf driver parameters regions now).map (Option.map .hdf)
  else if strLower format ∈ (["netcdf", "nc"] : List String) then
    (to_nc gdf parameters regions now).map (fun f => some (.nc f))
  else
    .ok none

/-- The from_file format dispatcher: an unrecognized format token returns
nothing and raises nothing.  Opening a file of the other container kind
fails in the underlying library. -/
def from_file (file : OutFile) (format driver : String) :
    Except String (Option GeoDataFrame) :=
  if strLower format ∈ (["hdf", "hdf5", "h5"] : List String) then
    match file with
    | .hdf h => from_hdf h driver
    | .nc _ => .error "OSError: unable to open file"
  else if strLower format ∈ (["netcdf", "nc"] : List String) then
    match file with
    | .nc f => (from_nc f).map some
    | .hdf _ => .error "OSError: not a valid NetCDF 3 file"
  else
    .ok none

/-- The variable the to_nc loop creates for one column (successful case):
name kept, unsigned data downcast to int32, schema entry attached. -/
def ncTransform (a : List (String × AttrEntry)) (p : String × Column) :
    String × NCVar :=
  (p.1, ⟨if p.2.dtype.isUnsigned then .int32 else p.2.dtype,
         if p.2.dtype.isUnsigned then p.2.values.map wrapInt32 else p.2.values,
         varAttrsOf a p.1⟩)

/-- What the classic write-then-read pipeline does to one column on the
value level: unsigned data wrapped into int32, all else verbatim. -/
def transCol (c : Column) : Column :=
  ⟨if c.dtype.isUnsigned then .int32 else c.dtype,
   if c.dtype.isUnsigned then c.values.map wrapInt32 else c.values⟩

/-- The dataset the write_h5py loop creates for one column (successful
case): dtype and data verbatim, schema entry attached. -/
def h5Transform (a : List (String × AttrEntry)) (p : String × Column) :
    String × H5Dataset :=
  (p.1, ⟨p.2.dtype, p.2.values, varAttrsOf a p.1⟩)

/-- Extract the payload of a successful hierarchical write. -/
def okHFile (r : Except String (Option HFile)) : HFile :=
  match r with
  | .ok (some h) => h
  | _ => .pt ⟨[], [], []⟩

/-- Extract the payload of a successful dispatched write. -/
def okOut (r : Except String (Option OutFile)) : OutFile :=
  match r with
  | .ok (some f) => f
  | _ => .nc ⟨[], [], []⟩

/-- Table whose delta_time column is not sorted ascending, for the
round-trip counterexamples. -/
def c1gdf : GeoDataFrame :=
  ⟨[0, 1],
   [("delta_time", ⟨.float64, [86400, 0]⟩), ("h_mean", ⟨.float64, [1, 2]⟩)],
   [⟨1, 2⟩, ⟨3, 4⟩]⟩

/-- Table with an unsorted index and unsorted delta_time, for the
hierarchical round-trip counterexample. -/
def c2gdf : GeoDataFrame :=
  ⟨[5, 3],
   [("delta_time", ⟨.float64, [9, 2]⟩), ("h_mean", ⟨.float64, [1, 2]⟩)],
   [⟨1, 2⟩, ⟨3, 4⟩]⟩

/-- One-row table: its file squeezes every variable to a 0-d scalar on
read, so both timestamp-reconstructing readers raise. -/
def c1onerow : GeoDataFrame :=
  ⟨[0], [("delta_time", ⟨.float64, [5]⟩), ("h_mean", ⟨.float64, [1]⟩)],
   [⟨3, 4⟩]⟩

/-- Well-formed table with sorted delta_time and an unsigned column in
signed 32-bit range, for the round-trip witnesses. -/
def c1wgdf : GeoDataFrame :=
  ⟨[0, 1],
   [("delta_time", ⟨.float64, [0, 86400]⟩), ("cycle", ⟨.uint32, [7, 8]⟩)],
   [⟨1, 2⟩, ⟨3, 4⟩]⟩

/-- The canonical ATL06-SR variable names of the specification: segment id,
elapsed time, latitude, longitude, mean height, height uncertainty, fit
RMS, along-track slope, across-track slope, fit photon count, surface
window width, robust spread, orbit cycle, reference ground track,
ground-track id, spot number, processing-flag bitmask. -/
def canonicalVariables : List String :=
  ["segment_id", "delta_time", "latitude", "longitude", "h_mean", "h_sigma",
   "rms_misfit", "dh_fit_dx", "dh_fit_dy", "n_fit_photons",
   "w_surface_window_final", "h_robust_sprd", "cycle", "rgt", "gt", "spot",
   "pflags"]

/-- Whether a schema lookup produced a per-variable metadata entry. -/
def isVarEntry : Option AttrEntry → Bool
  | some (.varAttrs _) => true
  | _ => false

/-- Classic-array file with delta_time rows 0 and 86400, for Claim C3. -/
def epochNCFile : NCFile :=
  { dims := [("delta_time", 2)]
    vars := [("delta_time", ⟨.float64, [0, 86400], []⟩),
             ("latitude", ⟨.float64, [1, 2], []⟩),
             ("longitude", ⟨.float64, [3, 4], []⟩)]
    attrs := [] }

/-- Hierarchical (h5py) file with delta_time rows 0 and 86400, for C3. -/
def epochH5File : H5File :=
  { datasets := [("delta_time", ⟨.float64, [0, 86400], []⟩),
                 ("latitude", ⟨.float64, [1, 2], []⟩),
                 ("longitude", ⟨.float64, [3, 4], []⟩)]
    attrs := [] }

/-- Extract the payload of a successful classic write (writer total on the
error side for building concrete witnesses). -/
def okNC (r : Except String NCFile) : NCFile :=
  match r with
  | .ok f => f
  | .error _ => ⟨[], [], []⟩

/-- Extract the payload of a successful h5py write. -/
def okH5 (r : Except String H5File) : H5File :=
  match r with
  | .ok f => f
  | .error _ => ⟨[], []⟩

/-- Extract the payload of a successful read. -/
def okGdf (r : Except String GeoDataFrame) : GeoDataFrame :=
  match r with
  | .ok g => g
  | .error _ => ⟨[], [], []⟩

/-- Table used in the witness of the downcast claim: one unsigned column. -/
def c4gdf : GeoDataFrame :=
  ⟨[0], [("delta_time", ⟨.float64, [5]⟩), ("cycle", ⟨.uint32, [7]⟩)],
   [⟨3, 4⟩]⟩

/-- Parameters mapping used in the C5 witness: two recognized names (srt,
maxi), one unrecognized name (foo). -/
def c5ps : List (String × AttVal) :=
  [("srt", .num 3), ("maxi", .num 5), ("foo", .num 9)]

/-- Table with a column name outside the attribute schema. -/
def c7gdf : GeoDataFrame :=
  ⟨[0], [("delta_time", ⟨.float64, [5]⟩), ("bogus", ⟨.float64, [1]⟩)],
   [⟨3, 4⟩]⟩

/-- Table with no delta_time column. -/
def c10gdf : GeoDataFrame := ⟨[0], [("h_mean", ⟨.float64, [1]⟩)], [⟨3, 4⟩]⟩

/-- Classic file with no delta_time variable. -/
def c10nc : NCFile := ⟨[], [("h_mean", ⟨.float64, [1], []⟩)], []⟩

/-- Hierarchical file with no delta_time dataset. -/
def c10h5 : H5File := ⟨[("h_mean", ⟨.float64, [1], []⟩)], []⟩

/-- Table used for the concrete region-encoding check. -/
def c8gdf : GeoDataFrame :=
  ⟨[0], [("delta_time", ⟨.float64, [5]⟩)], [⟨3, 4⟩]⟩

/-- Two regions of three points each. -/
def c8regions : List (List Point) :=
  [[⟨1, 2⟩, ⟨3, 4⟩, ⟨5, 6⟩], [⟨7, 8⟩, ⟨9, 10⟩, ⟨11, 12⟩]]

/-- The full attribute list to_nc writes for c8gdf with c8regions: the
nine fixed file attributes followed by exactly the four polygon
attributes, and nothing else. -/
def c8attrs : List (String × AttVal) :=
  [("featureType", .str "trajectory"),
   ("title", .str "ATLAS/ICESat-2 SlideRule Height"),
   ("reference", .str "https://doi.org/10.5281/zenodo.5484048"),
   ("date_created", .str "t"),
   ("geospatial_lat_units", .str "degrees_north"),
   ("geospatial_lon_units", .str "degrees_east"),
   ("geospatial_ellipsoid", .str "WGS84"),
   ("date_type", .str "UTC"),
   ("time_type", .str "CCSDS UTC-A"),
   ("poly0_x", .numList [1, 3, 5]),
   ("poly0_y", .numList [2, 4, 6]),
   ("poly1_x", .numList [7, 9, 11]),
   ("poly1_y", .numList [8, 10, 12])]

/-- Claim C9: every call of get_attributes defines a per-variable metadata
entry for each canonical variable; the ground-track entry pairs flag
values 10/20/30/40/50/60 with meanings GT1L..GT3R in order, and the
processing-flag entry pairs 0/1/2/4 with valid, spread too short, too few
photons, max iterations reached, in order. -/
theorem get_attributes_canonical_and_flags (now : String) :
    canonicalVariables.all
        (fun v => isVarEntry (listLookup v (get_attributes now))) = true
    ∧ listLookup "flag_values" (varAttrsOf (get_attributes now) "gt")
        = some (.numList [10, 20, 30, 40, 50, 60])
    ∧ listLookup "flag_meanings" (varAttrsOf (get_attributes now) "gt")
        = some (.str "GT1L, GT1R, GT2L, GT2R, GT3L, GT3R")
    ∧ listLookup "flag_values" (varAttrsOf (get_attributes now) "pflags")
        = some (.numList [0, 1, 2, 4])
    ∧ listLookup "flag_meanings" (varAttrsOf (get_attributes now) "pflags")
        = some (.str
          "valid, spread too short, too few photons, max iterations reached")
    := ⟨rfl, rfl, rfl, rfl, rfl⟩

/-- Claim C3: on the classic read path and on the h5py read path, a row
with delta_time 0 reconstructs to the timestamp 2018-01-01T00:00:00 and a
row with delta_time 86400 reconstructs to 2018-01-02T00:00:00 (epoch
2018-01-01 plus delta_time seconds in nanoseconds). -/
theorem epoch_correctness :
    (from_nc epochNCFile).map (fun g => g.index)
        = .ok [datetime64ns 2018 1 1, datetime64ns 2018 1 2]
    ∧ (read_h5py epochH5File).map (fun g => g.index)
        = .ok [datetime64ns 2018 1 1, datetime64ns 2018 1 2] := by
  exact ⟨rfl, rfl⟩

/-- Lookup distributes over list append, first list wins. -/
theorem listLookup_append {α : Type} (k : String) (l1 l2 : List (String × α)) :
    listLookup k (l1 ++ l2) = (listLookup k l1).or (listLookup k l2) := by
  induction l1 with
  | nil => simp [listLookup]
  | cons p rest ih =>
      by_cases h : p.1 = k
      · simp [listLookup, h]
      · simpa [listLookup, h] using ih

/-- Lookup after a key-preserving map is the mapped lookup. -/
theorem listLookup_map {α β : Type} (g : String → α → β) (k : String)
    (l : List (String × α)) :
    listLookup k (l.map (fun p => (p.1, g p.1 p.2)))
      = (listLookup k l).map (g k) := by
  induction l with
  | nil => rfl
  | cons p rest ih =>
      by_cases h : p.1 = k
      · simp [listLookup, h]
      · simp [listLookup, h, ih]

/-- A key absent from the key column looks up to none. -/
theorem listLookup_eq_none {α : Type} (k : String) (l : List (String × α))
    (h : k ∉ l.map Prod.fst) : listLookup k l = none := by
  induction l with
  | nil => rfl
  | cons p rest ih =>
      simp only [List.map_cons, List.mem_cons] at h
      push_neg at h
      have hh : ¬ p.1 = k := fun he => h.1 he.symm
      simp [listLookup, hh, ih h.2]

/-- A successful lookup is a member. -/
theorem listLookup_mem {α : Type} {k : String} {l : List (String × α)} {v : α}
    (h : listLookup k l = some v) : (k, v) ∈ l := by
  induction l with
  | nil => simp [listLookup] at h
  | cons p rest ih =>
      obtain ⟨k1, v1⟩ := p
      by_cases he : k1 = k
      · subst he
        simp only [listLookup, eq_self_iff_true, if_true,
          Option.some.injEq] at h
        subst h
        exact List.mem_cons_self _ _
      · simp only [listLookup, if_neg he] at h
        exact List.mem_cons_of_mem _ (ih h)

/-- Filtering on a key predicate the key satisfies does not change lookup. -/
theorem listLookup_filter {α : Type} (q : String → Bool) (k : String)
    (l : List (String × α)) (hk : q k = true) :
    listLookup k (l.filter (fun p => q p.1)) = listLookup k l := by
  induction l with
  | nil => rfl
  | cons p rest ih =>
      by_cases hq : q p.1
      · by_cases he : p.1 = k
        · simp [List.filter_cons, hq, listLookup, he, ih, hk]
        · simp [List.filter_cons, hq, listLookup, he, ih, hk]
      · have he : ¬ p.1 = k := by
          intro hh
          rw [hh, hk] at hq
          exact hq rfl
        simp [List.filter_cons, hq, listLookup, he, ih]

/-- If the body succeeds pointwise with explicit results, the loop
succeeds with the mapped results. -/
theorem exceptMapM_ok_of_forall {α β : Type} (g : α → Except String β)
    (f : α → β) (l : List α) (h : ∀ x ∈ l, g x = .ok (f x)) :
    exceptMapM g l = .ok (l.map f) := by
  induction l with
  | nil => rfl
  | cons x xs ih =>
      simp only [exceptMapM, h x (List.mem_cons_self x xs),
        ih (fun y hy => h y (List.mem_cons_of_mem x hy)), List.map_cons]

/-- If the loop succeeds, the body succeeded on every element and its
result is collected in the output. -/
theorem exceptMapM_ok_mem {α β : Type} {g : α → Except String β}
    {l : List α} {out : List β} (h : exceptMapM g l = .ok out) :
    ∀ x ∈ l, ∃ y, g x = .ok y ∧ y ∈ out := by
  induction l generalizing out with
  | nil => intro x hx; simp at hx
  | cons a xs ih =>
      intro x hx
      simp only [exceptMapM] at h
      cases hga : g a with
      | error e => rw [hga] at h; exact absurd h (by simp)
      | ok y =>
          rw [hga] at h
          cases hgs : exceptMapM g xs with
          | error e => rw [hgs] at h; exact absurd h (by simp)
          | ok ys =>
              rw [hgs] at h
              simp only [Except.ok.injEq] at h
              subst h
              rcases List.mem_cons.mp hx with he | hm
              · exact ⟨y, by rw [he, hga], List.mem_cons_self y ys⟩
              · obtain ⟨z, hz, hzm⟩ := ih hgs x hm
                exact ⟨z, hz, List.mem_cons_of_mem y hzm⟩

/-- Assigning a fresh column appends it. -/
theorem dfSet_of_not_mem {l : List (String × Column)} {k : String}
    (c : Column) (h : k ∉ l.map Prod.fst) : dfSet l k c = l ++ [(k, c)] := by
  unfold dfSet
  rw [if_neg]
  intro hc
  simp only [List.any_eq_true, decide_eq_true_eq] at hc
  obtain ⟨p, hp, hpk⟩ := hc
  exact h (hpk ▸ List.mem_map_of_mem Prod.fst hp)

/-- Column assignment keeps every pair with a different key. -/
theorem mem_dfSet_of_ne {l : List (String × Column)} {k2 : String}
    {c2 : Column} (k : String) (c : Column) (hm : (k2, c2) ∈ l)
    (hne : k2 ≠ k) : (k2, c2) ∈ dfSet l k c := by
  unfold dfSet
  by_cases h : l.any (fun p => p.1 = k)
  · rw [if_pos h]
    have he : (if (k2, c2).1 = k then (k, c) else (k2, c2)) = (k2, c2) := by
      simp [hne]
    exact he ▸ List.mem_map_of_mem _ hm
  · rw [if_neg h]
    exact List.mem_append_left _ hm

/-- Replacing the column bound to one key leaves other lookups alone. -/
theorem listLookup_replace {k2 k : String} (c : Column)
    (l : List (String × Column)) (hne : k2 ≠ k) :
    listLookup k2 (l.map (fun p => if p.1 = k then (k, c) else p))
      = listLookup k2 l := by
  induction l with
  | nil => rfl
  | cons p rest ih =>
      obtain ⟨k1, c1⟩ := p
      simp only [List.map_cons]
      by_cases he : k1 = k
      · have hh : (if (k1, c1).1 = k then (k, c) else (k1, c1)) = (k, c) :=
          if_pos he
        rw [hh]
        have hk2 : ¬ (k = k2) := fun hkk => hne hkk.symm
        have hp2 : ¬ (k1 = k2) := fun hx => hne (hx ▸ he)
        simp [listLookup, hk2, hp2, ih]
      · have hh : (if (k1, c1).1 = k then (k, c) else (k1, c1)) = (k1, c1) :=
          if_neg he
        rw [hh]
        by_cases h2 : k1 = k2
        · simp [listLookup, h2]
        · simp [listLookup, h2, ih]

/-- Column assignment does not change lookups of other keys. -/
theorem listLookup_dfSet_ne {l : List (String × Column)} {k2 k : String}
    (c : Column) (hne : k2 ≠ k) :
    listLookup k2 (dfSet l k c) = listLookup k2 l := by
  unfold dfSet
  by_cases h : l.any (fun p => p.1 = k)
  · rw [if_pos h]
    exact listLookup_replace c l hne
  · rw [if_neg h, listLookup_append]
    have hone : listLookup k2 [(k, c)] = none := by
      have hkk : ¬ (k = k2) := fun hh => hne hh.symm
      simp [listLookup, hkk]
    cases hl : listLookup k2 l <;> simp [hone, hl]

/-- Reading positions 0..n-1 of a list of length n reproduces the list. -/
theorem range_map_getD {α : Type} (l : List α) (d : α) :
    (List.range l.length).map (fun i => l.getD i d) = l := by
  induction l with
  | nil => rfl
  | cons x xs ih =>
      rw [List.length_cons, List.range_succ_eq_map, List.map_cons,
        List.map_map]
      have he : ((fun i => (x :: xs).getD i d) ∘ Nat.succ)
          = (fun i => xs.getD i d) := by
        funext i
        simp [List.getD_cons_succ]
      rw [he, ih]
      simp [List.getD_cons_zero]

/-- A sorted time column induces the identity sort permutation. -/
theorem sortPerm_of_sorted {time : List Int}
    (h : time.Pairwise (· ≤ ·)) :
    sortPerm time = List.range time.length := by
  unfold sortPerm
  apply List.Sorted.insertionSort_eq
  unfold List.Sorted
  rw [List.pairwise_iff_getElem]
  intro i j hi hj hij
  rw [List.getElem_range, List.getElem_range]
  simp only [List.length_range] at hi hj
  rw [List.getD_eq_getElem _ _ hi, List.getD_eq_getElem _ _ hj]
  exact List.pairwise_iff_getElem.mp h i j hi hj hij

/-- Applying the identity permutation to a column of matching length. -/
theorem applyPerm_range {l : List Int} {n : Nat} (h : l.length = n) :
    applyPerm (List.range n) l = l := by
  subst h
  exact range_map_getD l 0

/-- Applying the identity permutation to the geometry column. -/
theorem applyPermP_range {l : List Point} {n : Nat} (h : l.length = n) :
    applyPermP (List.range n) l = l := by
  subst h
  exact range_map_getD l default

/-- Rebuilding points from the flattened lon and lat columns is the
identity on the geometry column. -/
theorem zipWith_lonlat (l : List Point) :
    List.zipWith (fun x y => Point.mk x y) (l.map (·.lon)) (l.map (·.lat))
      = l := by
  induction l with
  | nil => rfl
  | cons p rest ih => simp [ih]

/-- astype(np.int32) is the identity on values already in signed 32-bit
range. -/
theorem wrapInt32_eq_self {v : Int} (h0 : 0 ≤ v) (h1 : v < 2 ^ 31) :
    wrapInt32 v = v := by
  unfold wrapInt32
  rw [Int.emod_eq_of_lt (by omega) (by omega)]
  omega

/-- Timestamp reconstruction is monotone. -/
theorem reconstructTime_mono {v w : Int} (h : v ≤ w) :
    reconstructTime v ≤ reconstructTime w := by
  unfold reconstructTime
  omega

/-- No recognized parameter name starts with the letters poly, so no
polygon attribute name collides with a parameter name. -/
theorem poly_ne_SRparam (t : String) {p : String} (hp : p ∈ SRparams) :
    "poly" ++ t ≠ p := by
  intro h
  have hd : ("poly" ++ t).data.head? = p.data.head? := by rw [h]
  rw [String.data_append] at hd
  have hp2 : ("poly".data ++ t.data).head? = some 'p' := rfl
  rw [hp2] at hd
  fin_cases hp <;> exact absurd hd (by decide)

/-- Parameter names never look up into the polygon attribute block. -/
theorem listLookup_polyAttrsFrom {p : String} (hp : p ∈ SRparams)
    (regions : List (List Point)) :
    ∀ i, listLookup p (polyAttrsFrom i regions) = none := by
  induction regions with
  | nil => intro i; rfl
  | cons poly rest ih =>
      intro i
      have hx : ¬ (polyXName i = p) := by
        have := poly_ne_SRparam (Nat.repr i ++ "_x") hp
        rw [← String.append_assoc] at this
        exact this
      have hy : ¬ (polyYName i = p) := by
        have := poly_ne_SRparam (Nat.repr i ++ "_y") hp
        rw [← String.append_assoc] at this
        exact this
      simp [polyAttrsFrom, listLookup, hx, hy, ih (i + 1)]

/-- Keys absent from a keyed filterMap never look up into it. -/
theorem listLookup_filterMap_not_mem {p : String}
    (m : String → Option AttVal) (K : List String) (hp : p ∉ K) :
    listLookup p (K.filterMap (fun q => (m q).map (fun v => (q, v)))) = none := by
  induction K with
  | nil => rfl
  | cons q rest ih =>
      simp only [List.mem_cons] at hp
      push_neg at hp
      have hq : ¬ (q = p) := fun hh => hp.1 hh.symm
      cases hm : m q with
      | none => simp [List.filterMap_cons, hm, ih hp.2]
      | some v => simp [List.filterMap_cons, hm, listLookup, hq, ih hp.2]

/-- Looking up a key of a keyed filterMap over a duplicate-free key list
gives exactly what the underlying mapping gives. -/
theorem listLookup_filterMap_mem {p : String} (m : String → Option AttVal)
    (K : List String) (hnd : K.Nodup) (hp : p ∈ K) :
    listLookup p (K.filterMap (fun q => (m q).map (fun v => (q, v)))) = m p := by
  induction K with
  | nil => simp at hp
  | cons q rest ih =>
      rcases List.mem_cons.mp hp with he | hm2
      · subst he
        cases hm : m p with
        | none =>
            rw [List.filterMap_cons]
            simp only [hm, Option.map_none']
            exact listLookup_filterMap_not_mem m rest
              (by simpa using (List.nodup_cons.mp hnd).1)
        | some v => simp [List.filterMap_cons, hm, listLookup]
      · have hq : ¬ (q = p) := by
          intro hh
          subst hh
          exact (List.nodup_cons.mp hnd).1 hm2
        cases hm : m q with
        | none =>
            simp [List.filterMap_cons, hm,
              ih (List.nodup_cons.mp hnd).2 hm2]
        | some v =>
            simp [List.filterMap_cons, hm, listLookup, hq,
              ih (List.nodup_cons.mp hnd).2 hm2]

/-- The parameter attribute block binds each recognized name exactly as
the supplied parameters mapping does. -/
theorem listLookup_paramAttrs {p : String} (hp : p ∈ SRparams)
    (ps : List (String × AttVal)) :
    listLookup p (paramAttrs (some ps)) = listLookup p ps := by
  unfold paramAttrs
  exact listLookup_filterMap_mem (fun q => listLookup q ps) SRparams
    (by decide) hp

/-- Recognized parameter names are disjoint from the fixed file-level
attribute names of to_nc and write_h5py. -/
theorem listLookup_baseFileAttrs {p : String} (hp : p ∈ SRparams)
    (a : List (String × AttrEntry)) :
    listLookup p (baseFileAttrs a) = none := by
  fin_cases hp <;> rfl

/-- The attribute list shared by to_nc and write_h5py resolves each
recognized parameter name exactly as the parameters mapping does. -/
theorem listLookup_writerAttrs {p : String} (hp : p ∈ SRparams)
    (a : List (String × AttrEntry)) (ps : List (String × AttVal))
    (regions : List (List Point)) :
    listLookup p (baseFileAttrs a ++ paramAttrs (some ps)
        ++ polyAttrs regions)
      = listLookup p ps := by
  rw [listLookup_append, listLookup_append, listLookup_baseFileAttrs hp,
    listLookup_paramAttrs hp]
  unfold polyAttrs
  rw [listLookup_polyAttrsFrom hp regions 0]
  cases listLookup p ps <;> rfl

/-- Anatomy of a successful to_nc call: the dimension lookup succeeded,
the variable loop succeeded with exactly the file variables, and the file
attributes are the three attribute blocks in order. -/
theorem to_nc_ok_parts {gdf : GeoDataFrame}
    {params : Option (List (String × AttVal))} {regions : List (List Point)}
    {now : String} {f : NCFile} (h : to_nc gdf params regions now = .ok f) :
    (∃ dtc, listLookup "delta_time" (dfOf gdf) = some dtc)
    ∧ exceptMapM (ncVarOf (get_attributes now)) (dfOf gdf) = .ok f.vars
    ∧ f.attrs = baseFileAttrs (get_attributes now) ++ paramAttrs params
                  ++ polyAttrs regions := by
  simp only [to_nc] at h
  cases hdt : listLookup "delta_time" (dfOf gdf) with
  | none => rw [hdt] at h; exact absurd h (by simp)
  | some dtc =>
      rw [hdt] at h
      cases hm : exceptMapM (ncVarOf (get_attributes now)) (dfOf gdf) with
      | error e => rw [hm] at h; exact absurd h (by simp)
      | ok vs =>
          rw [hm] at h
          injection h with h2
          subst h2
          exact ⟨⟨dtc, rfl⟩, rfl, rfl⟩

/-- Anatomy of a successful write_h5py call. -/
theorem write_h5py_ok_parts {df : DataFrame} {a : List (String × AttrEntry)}
    {params : Option (List (String × AttVal))} {regions : List (List Point)}
    {h5 : H5File} (h : write_h5py df a params regions = .ok h5) :
    ∃ dtc dta rest,
      listLookup "delta_time" df.columns = some dtc
      ∧ getVarAttrs a "delta_time" = .ok dta
      ∧ exceptMapM (h5DatasetOf a)
          (df.columns.filter (fun p => decide (p.1 ≠ "delta_time"))) = .ok rest
      ∧ h5 = { datasets := ("delta_time", ⟨dtc.dtype, dtc.values, dta⟩) :: rest
               attrs := baseFileAttrs a ++ paramAttrs params
                         ++ polyAttrs regions } := by
  simp only [write_h5py] at h
  cases hdt : listLookup "delta_time" df.columns with
  | none => rw [hdt] at h; exact absurd h (by simp)
  | some dtc =>
      rw [hdt] at h
      cases hda : getVarAttrs a "delta_time" with
      | error e => rw [hda] at h; exact absurd h (by simp)
      | ok dta =>
          rw [hda] at h
          cases hm : exceptMapM (h5DatasetOf a)
              (df.columns.filter (fun p => decide (p.1 ≠ "delta_time"))) with
          | error e => rw [hm] at h; exact absurd h (by simp)
          | ok rest =>
              rw [hm] at h
              injection h with h2
              exact ⟨dtc, dta, rest, rfl, rfl, rfl, h2.symm⟩

/-- Membership of an ordinary column in the flattened DataFrame. -/
theorem mem_dfOf {gdf : GeoDataFrame} {k : String} {c : Column}
    (hm : (k, c) ∈ gdf.columns) (hla : k ≠ "latitude")
    (hlo : k ≠ "longitude") : (k, c) ∈ dfOf gdf :=
  mem_dfSet_of_ne _ _ (mem_dfSet_of_ne _ _ hm hla) hlo

/-- A member key always looks up to something. -/
theorem listLookup_isSome_of_mem {α : Type} {k : String} {c : α}
    {l : List (String × α)} (hm : (k, c) ∈ l) :
    ∃ v, listLookup k l = some v := by
  induction l with
  | nil => simp at hm
  | cons p rest ih =>
      by_cases he : p.1 = k
      · exact ⟨p.2, by simp [listLookup, he]⟩
      · rcases List.mem_cons.mp hm with hq | hq
        · exact absurd (congrArg Prod.fst hq).symm he
        · obtain ⟨v, hv⟩ := ih hq
          exact ⟨v, by simp [listLookup, he, hv]⟩

/-- A successful variable-attribute lookup is the total lookup. -/
theorem getVarAttrs_ok {a : List (String × AttrEntry)} {k : String}
    {va : List (String × AttVal)} (h : getVarAttrs a k = .ok va) :
    varAttrsOf a k = va := by
  unfold getVarAttrs at h
  unfold varAttrsOf
  cases hl : listLookup k a with
  | none => rw [hl] at h; exact absurd h (by simp)
  | some e =>
      rw [hl] at h
      cases e with
      | fileAttr v => exact absurd h (by simp)
      | varAttrs l => exact Except.ok.inj h

/-- A name with no schema entry makes the variable-attribute access raise. -/
theorem getVarAttrs_error_of_none {a : List (String × AttrEntry)} {k : String}
    (h : listLookup k a = none) :
    getVarAttrs a k = .error ("KeyError: " ++ k) := by
  unfold getVarAttrs
  rw [h]

/-- Shape of the variable the classic writer creates for any ordinary
column of a successfully written table. -/
theorem to_nc_vars_mem {gdf : GeoDataFrame}
    {params : Option (List (String × AttVal))} {regions : List (List Point)}
    {now : String} {f : NCFile} (h : to_nc gdf params regions now = .ok f)
    {k : String} {c : Column} (hm : (k, c) ∈ gdf.columns)
    (hla : k ≠ "latitude") (hlo : k ≠ "longitude") :
    (k, NCVar.mk (if c.dtype.isUnsigned then .int32 else c.dtype)
        (if c.dtype.isUnsigned then c.values.map wrapInt32 else c.values)
        (varAttrsOf (get_attributes now) k)) ∈ f.vars := by
  obtain ⟨-, hvars, -⟩ := to_nc_ok_parts h
  obtain ⟨y, hy, hym⟩ := exceptMapM_ok_mem hvars _ (mem_dfOf hm hla hlo)
  unfold ncVarOf at hy
  cases hga : getVarAttrs (get_attributes now) k with
  | error e => rw [hga] at hy; exact absurd hy (by simp)
  | ok va =>
      rw [hga] at hy
      rw [getVarAttrs_ok hga]
      by_cases hu : c.dtype.isUnsigned
      · simp only [hu, if_true] at hy
        injection hy with hy2
        rw [← hy2] at hym
        simpa [hu] using hym
      · simp only [hu, if_false] at hy
        injection hy with hy2
        rw [← hy2] at hym
        simpa [hu] using hym

/-- Claim C4: the classic writer stores every unsigned-integer column as a
signed 32-bit variable holding the values downcast via int32 wrapping, and
every other column with its element type and values unchanged. -/
theorem unsigned_downcast_to_nc (gdf : GeoDataFrame)
    (params : Option (List (String × AttVal))) (regions : List (List Point))
    (now : String) (f : NCFile) (h : to_nc gdf params regions now = .ok f) :
    ∀ k c, (k, c) ∈ gdf.columns → k ≠ "latitude" → k ≠ "longitude" →
      (k, NCVar.mk (if c.dtype.isUnsigned then .int32 else c.dtype)
          (if c.dtype.isUnsigned then c.values.map wrapInt32 else c.values)
          (varAttrsOf (get_attributes now) k)) ∈ f.vars := by
  intro k c hm hla hlo
  exact to_nc_vars_mem h hm hla hlo

/-- Witness for C4 at a concrete table: the uint32 cycle column is written
as an int32 variable with wrapped values. -/
theorem unsigned_downcast_to_nc_witness :
    ("cycle", NCVar.mk (if Dtype.uint32.isUnsigned then .int32 else .uint32)
        (if Dtype.uint32.isUnsigned then ([7] : List Int).map wrapInt32 else [7])
        (varAttrsOf (get_attributes "t") "cycle"))
      ∈ (okNC (to_nc c4gdf none [] "t")).vars := by
  exact unsigned_downcast_to_nc c4gdf none [] "t" _ rfl "cycle" ⟨.uint32, [7]⟩
    (by decide) (by decide) (by decide)

/-- Claim C5: for both the classic writer and the h5py writer, the written
file binds each recognized parameter name exactly as the supplied
parameters mapping does: present names appear with their values, absent
names do not appear, and nothing is raised either way. -/
theorem parameter_attribute_selection (gdf : GeoDataFrame) (df : DataFrame)
    (ps : List (String × AttVal)) (regions : List (List Point)) (now : String)
    (f : NCFile) (h5 : H5File) :
    (to_nc gdf (some ps) regions now = .ok f →
       ∀ p ∈ SRparams, listLookup p f.attrs = listLookup p ps)
    ∧ (write_h5py df (get_attributes now) (some ps) regions = .ok h5 →
       ∀ p ∈ SRparams, listLookup p h5.attrs = listLookup p ps) := by
  constructor
  · intro h p hp
    obtain ⟨-, -, hattrs⟩ := to_nc_ok_parts h
    rw [hattrs]
    exact listLookup_writerAttrs hp _ ps regions
  · intro h p hp
    obtain ⟨dtc, dta, rest, -, -, -, hfile⟩ := write_h5py_ok_parts h
    rw [hfile]
    exact listLookup_writerAttrs hp _ ps regions

/-- Witness for C5 at a concrete table and mapping: srt is written with
its value, cnf (absent from the mapping) is not written. -/
theorem parameter_attribute_selection_witness :
    listLookup "srt" (okNC (to_nc c4gdf (some c5ps) [] "t")).attrs
        = listLookup "srt" c5ps
    ∧ listLookup "cnf" (okNC (to_nc c4gdf (some c5ps) [] "t")).attrs
        = listLookup "cnf" c5ps := by
  refine ⟨?a, ?b⟩
  · exact (parameter_attribute_selection c4gdf ⟨[], []⟩ c5ps [] "t" _ ⟨[], []⟩).1
      rfl "srt" (by decide)
  · exact (parameter_attribute_selection c4gdf ⟨[], []⟩ c5ps [] "t" _ ⟨[], []⟩).1
      rfl "cnf" (by decide)

/-- Claim C7 as the code has it: a writer attaches every metadata key of
the schema entry of a column name as a variable-level attribute when an
entry exists; but a column whose name has no schema entry makes the write
raise a KeyError instead of completing. -/
theorem schema_entry_attachment (gdf : GeoDataFrame) (df : DataFrame)
    (params : Option (List (String × AttVal))) (regions : List (List Point))
    (now : String) (f : NCFile) (h5 : H5File) (k : String) (c : Column)
    (e : List (String × AttVal)) :
    (to_nc gdf params regions now = .ok f → (k, c) ∈ gdf.columns →
       k ≠ "latitude" → k ≠ "longitude" →
       listLookup k (get_attributes now) = some (.varAttrs e) →
       ∃ v, (k, v) ∈ f.vars ∧ v.attrs = e)
    ∧ ((k, c) ∈ gdf.columns → listLookup k (get_attributes now) = none →
       ∀ g, to_nc gdf params regions now ≠ .ok g)
    ∧ (write_h5py df (get_attributes now) params regions = .ok h5 →
       (k, c) ∈ df.columns → k ≠ "delta_time" →
       listLookup k (get_attributes now) = some (.varAttrs e) →
       ∃ d, (k, d) ∈ h5.datasets ∧ d.attrs = e)
    ∧ ((k, c) ∈ df.columns → listLookup k (get_attributes now) = none →
       ∀ g2, write_h5py df (get_attributes now) params regions ≠ .ok g2) := by
  refine ⟨?pos_nc, ?neg_nc, ?pos_h5, ?neg_h5⟩
  · intro h hm hla hlo hlook
    refine ⟨_, to_nc_vars_mem h hm hla hlo, ?he⟩
    unfold varAttrsOf
    rw [hlook]
  · intro hm hnone g hok
    have hla : k ≠ "latitude" := by
      intro he
      have hsome : (listLookup "latitude" (get_attributes now)).isSome = true :=
        rfl
      rw [he] at hnone
      rw [hnone] at hsome
      exact absurd hsome (by simp)
    have hlo : k ≠ "longitude" := by
      intro he
      have hsome : (listLookup "longitude" (get_attributes now)).isSome = true :=
        rfl
      rw [he] at hnone
      rw [hnone] at hsome
      exact absurd hsome (by simp)
    obtain ⟨-, hvars, -⟩ := to_nc_ok_parts hok
    obtain ⟨y, hy, -⟩ := exceptMapM_ok_mem hvars _ (mem_dfOf hm hla hlo)
    simp only [ncVarOf, getVarAttrs_error_of_none hnone] at hy
    exact absurd hy (by simp)
  · intro h hm hkd hlook
    obtain ⟨dtc, dta, rest, -, -, hrest, hfile⟩ := write_h5py_ok_parts h
    have hmf : (k, c) ∈ df.columns.filter
        (fun p => decide (p.1 ≠ "delta_time")) :=
      List.mem_filter.mpr ⟨hm, by simp [hkd]⟩
    obtain ⟨y, hy, hym⟩ := exceptMapM_ok_mem hrest _ hmf
    unfold h5DatasetOf at hy
    cases hga : getVarAttrs (get_attributes now) k with
    | error e2 => rw [hga] at hy; exact absurd hy (by simp)
    | ok va =>
        rw [hga] at hy
        injection hy with hy2
        refine ⟨⟨c.dtype, c.values, va⟩, ?hd, ?hattr⟩
        · rw [hfile]
          refine List.mem_cons_of_mem _ ?hin
          rw [← hy2] at hym
          exact hym
        · have hva : varAttrsOf (get_attributes now) k = va := getVarAttrs_ok hga
          rw [← hva]
          unfold varAttrsOf
          rw [hlook]
  · intro hm hnone g2 hok
    by_cases hkd : k = "delta_time"
    · obtain ⟨dtc, dta, rest, -, hda, -, -⟩ := write_h5py_ok_parts hok
      rw [← hkd, getVarAttrs_error_of_none hnone] at hda
      exact absurd hda (by simp)
    · obtain ⟨dtc, dta, rest, -, -, hrest, -⟩ := write_h5py_ok_parts hok
      have hmf : (k, c) ∈ df.columns.filter
          (fun p => decide (p.1 ≠ "delta_time")) :=
        List.mem_filter.mpr ⟨hm, by simp [hkd]⟩
      obtain ⟨y, hy, -⟩ := exceptMapM_ok_mem hrest _ hmf
      simp only [h5DatasetOf, getVarAttrs_error_of_none hnone] at hy
      exact absurd hy (by simp)

/-- Counterexample to C7 as stated: a table with a column named bogus
(which has no schema entry) makes to_nc raise a KeyError; the write does
not complete. -/
theorem schema_entry_attachment_counterexample :
    listLookup "bogus" (get_attributes "t") = none
    ∧ to_nc c7gdf none [] "t" = .error "KeyError: bogus" := ⟨rfl, rfl⟩

/-- Witness for the amended C7 at a concrete table: the cycle column gets
exactly its schema entry attached, and a bogus column aborts the write. -/
theorem schema_entry_attachment_witness :
    (∃ v, ("cycle", v) ∈ (okNC (to_nc c4gdf none [] "t")).vars
       ∧ v.attrs = [("long_name", AttVal.str "Orbital cycle"),
                    ("coordinates", AttVal.str "latitude longitude")])
    ∧ ∀ g, to_nc c7gdf none [] "t" ≠ .ok g := by
  constructor
  · exact (schema_entry_attachment c4gdf ⟨[], []⟩ none [] "t" _ ⟨[], []⟩
      "cycle" ⟨.uint32, [7]⟩ _).1 rfl (by decide) (by decide) (by decide) rfl
  · exact (schema_entry_attachment c7gdf ⟨[], []⟩ none [] "t" ⟨[], [], []⟩
      ⟨[], []⟩ "bogus" ⟨.float64, [1]⟩ []).2.1 (by decide) rfl

/-- Claim C10 as the code has it: the classic writer, the h5py writer and
both timestamp-reconstructing readers fail with a KeyError when delta_time
is absent. -/
theorem delta_time_precondition (gdf : GeoDataFrame) (df : DataFrame)
    (params : Option (List (String × AttVal))) (regions : List (List Point))
    (now : String) (f : NCFile) (h5 : H5File) :
    (listLookup "delta_time" gdf.columns = none →
       to_nc gdf params regions now = .error "KeyError: delta_time")
    ∧ (listLookup "delta_time" df.columns = none →
       write_h5py df (get_attributes now) params regions
         = .error "KeyError: delta_time")
    ∧ (listLookup "delta_time" f.vars = none →
       from_nc f = .error "KeyError: delta_time")
    ∧ (listLookup "delta_time" h5.datasets = none →
       read_h5py h5 = .error "KeyError: delta_time") := by
  refine ⟨?wnc, ?wh5, ?rnc, ?rh5⟩
  · intro h
    have hdf : listLookup "delta_time" (dfOf gdf) = none := by
      unfold dfOf
      rw [listLookup_dfSet_ne _ (by decide), listLookup_dfSet_ne _ (by decide)]
      exact h
    simp only [to_nc]
    rw [hdf]
  · intro h
    simp only [write_h5py]
    rw [h]
  · intro h
    have hv := listLookup_map (fun x (v : NCVar) => Column.mk v.dtype v.values)
      "delta_time" f.vars
    rw [h] at hv
    simp only [Option.map_none'] at hv
    simp only [from_nc, assembleGdf]
    rw [hv]
  · intro h
    have hv := listLookup_map
      (fun x (v : H5Dataset) => Column.mk v.dtype v.values)
      "delta_time" h5.datasets
    rw [h] at hv
    simp only [Option.map_none'] at hv
    simp only [read_h5py, assembleGdf]
    rw [hv]

/-- Counterexample to C10 as stated: the pytables write path is also a
write path, yet it happily writes a table with no delta_time column,
producing a complete file rather than an error. -/
theorem delta_time_precondition_counterexample :
    listLookup "delta_time" c10gdf.columns = none
    ∧ to_hdf c10gdf "pytables" none [] "t"
        = .ok (some (.pt
            { dfIndex := [0]
              dfColumns := [("h_mean", ⟨.float64, [1]⟩),
                            ("latitude", ⟨.float64, [4]⟩),
                            ("longitude", ⟨.float64, [3]⟩)]
              rootAttrs :=
                [("TITLE", .str "ATLAS/ICESat-2 SlideRule Height"),
                 ("reference", .str "https://doi.org/10.5281/zenodo.5484048"),
                 ("date_created", .str "t"),
                 ("geospatial_lat_units", .str "degrees_north"),
                 ("geospatial_lon_units", .str "degrees_east"),
                 ("geospatial_ellipsoid", .str "WGS84"),
                 ("date_type", .str "UTC"),
                 ("time_type", .str "CCSDS UTC-A")] })) := ⟨rfl, rfl⟩

/-- Witness for the amended C10 at concrete delta-free inputs. -/
theorem delta_time_precondition_witness :
    to_nc c10gdf none [] "t" = .error "KeyError: delta_time"
    ∧ write_h5py ⟨[0], [("h_mean", ⟨.float64, [1]⟩)]⟩ (get_attributes "t")
        none [] = .error "KeyError: delta_time"
    ∧ from_nc c10nc = .error "KeyError: delta_time"
    ∧ read_h5py c10h5 = .error "KeyError: delta_time" := by
  refine ⟨?w1, ?w2, ?w3, ?w4⟩
  · exact (delta_time_precondition c10gdf ⟨[], []⟩ none [] "t" c10nc c10h5).1 rfl
  · exact (delta_time_precondition c10gdf ⟨[0], [("h_mean", ⟨.float64, [1]⟩)]⟩
      none [] "t" c10nc c10h5).2.1 rfl
  · exact (delta_time_precondition c10gdf ⟨[], []⟩ none [] "t" c10nc c10h5).2.2.1 rfl
  · exact (delta_time_precondition c10gdf ⟨[], []⟩ none [] "t" c10nc c10h5).2.2.2 rfl

/-- Claim C6: an unrecognized format token makes to_file and from_file
silent no-ops (no file, no value, no error), and an unrecognized driver
token does the same on the hierarchical path. -/
theorem unsupported_token_noop (fmt driver : String) (gdf : GeoDataFrame)
    (file : OutFile) (h : HFile)
    (params : Option (List (String × AttVal))) (regions : List (List Point))
    (now : String) :
    (strLower fmt ∉ (["hdf", "hdf5", "h5", "netcdf", "nc"] : List String) →
       to_file gdf fmt driver params regions now = .ok none
       ∧ from_file file fmt driver = .ok none)
    ∧ (strLower driver ∉ (["pytables", "h5py"] : List String) →
       to_hdf gdf driver params regions now = .ok none
       ∧ from_hdf h driver = .ok none) := by
  constructor
  · intro hm
    have h1 : ¬ (strLower fmt ∈ (["hdf", "hdf5", "h5"] : List String)) := by
      intro hx
      apply hm
      simp only [List.mem_cons] at hx ⊢
      tauto
    have h2 : ¬ (strLower fmt ∈ (["netcdf", "nc"] : List String)) := by
      intro hx
      apply hm
      simp only [List.mem_cons] at hx ⊢
      tauto
    constructor
    · simp only [to_file]
      rw [if_neg h1, if_neg h2]
    · simp only [from_file]
      rw [if_neg h1, if_neg h2]
  · intro hm
    have h1 : ¬ (strLower driver = "pytables") := by
      intro hx
      exact hm (by simp [hx])
    have h2 : ¬ (strLower driver = "h5py") := by
      intro hx
      exact hm (by simp [hx])
    constructor
    · simp only [to_hdf]
      rw [if_neg h1, if_neg h2]
    · simp only [from_hdf]
      rw [if_neg h1, if_neg h2]

/-- Witness for C6 at concrete unrecognized tokens csv and zarr. -/
theorem unsupported_token_noop_witness :
    (to_file c10gdf "csv" "pytables" none [] "t" = .ok none
     ∧ from_file (.nc epochNCFile) "csv" "pytables" = .ok none)
    ∧ (to_hdf c10gdf "zarr" none [] "t" = .ok none
     ∧ from_hdf (.h5 epochH5File) "zarr" = .ok none) := by
  constructor
  · exact (unsupported_token_noop "csv" "pytables" c10gdf (.nc epochNCFile)
      (.h5 epochH5File) none [] "t").1 (by decide)
  · exact (unsupported_token_noop "csv" "zarr" c10gdf (.nc epochNCFile)
      (.h5 epochH5File) none [] "t").2 (by decide)

/-- Each polygon of the region list contributes its coordinate attributes
to the region attribute block, at its input position. -/
theorem polyAttrsFrom_mem {poly : List Point} :
    ∀ (regions : List (List Point)) (j i : Nat), regions[j]? = some poly →
      (polyXName (i + j), AttVal.numList (poly.map (·.lon)))
          ∈ polyAttrsFrom i regions
      ∧ (polyYName (i + j), AttVal.numList (poly.map (·.lat)))
          ∈ polyAttrsFrom i regions := by
  intro regions
  induction regions with
  | nil => intro j i h; simp at h
  | cons q rest ih =>
      intro j i h
      cases j with
      | zero =>
          rw [List.getElem?_cons_zero] at h
          injection h with h2
          subst h2
          refine ⟨?x, ?y⟩ <;> simp [polyAttrsFrom, coordinates]
      | succ j2 =>
          rw [List.getElem?_cons_succ] at h
          have hih := ih j2 (i + 1) h
          have hadd : i + 1 + j2 = i + (j2 + 1) := by omega
          rw [hadd] at hih
          simp only [polyAttrsFrom]
          exact ⟨List.mem_cons_of_mem _ (List.mem_cons_of_mem _ hih.1),
                 List.mem_cons_of_mem _ (List.mem_cons_of_mem _ hih.2)⟩

/-- Claim C8: every written file carries, for each supplied polygon i, the
attribute poly i x holding the polygon longitudes in input order and
poly i y holding the latitudes, each as long as the polygon; and on a
concrete two-polygon three-point input the file attributes are exactly
the nine fixed ones plus the four polygon attributes. -/
theorem region_polygon_encoding :
    (∀ (gdf : GeoDataFrame) (params : Option (List (String × AttVal)))
       (regions : List (List Point)) (now : String) (f : NCFile)
       (i : Nat) (poly : List Point),
       to_nc gdf params regions now = .ok f →
       regions[i]? = some poly →
       (polyXName i, AttVal.numList (poly.map (·.lon))) ∈ f.attrs
       ∧ (polyYName i, AttVal.numList (poly.map (·.lat))) ∈ f.attrs
       ∧ (poly.map (·.lon)).length = poly.length
       ∧ (poly.map (·.lat)).length = poly.length)
    ∧ (to_nc c8gdf none c8regions "t").map NCFile.attrs = .ok c8attrs := by
  constructor
  · intro gdf params regions now f i poly h hr
    obtain ⟨-, -, hattrs⟩ := to_nc_ok_parts h
    have hx := polyAttrsFrom_mem regions i 0 hr
    rw [Nat.zero_add] at hx
    rw [hattrs]
    refine ⟨List.mem_append_right _ hx.1, List.mem_append_right _ hx.2,
      by simp, by simp⟩
  · rfl

/-- Witness for C8 at polygon index 1 of the concrete region list. -/
theorem region_polygon_encoding_witness :
    (polyXName 1,
        AttVal.numList (([⟨7, 8⟩, ⟨9, 10⟩, ⟨11, 12⟩] : List Point).map (·.lon)))
      ∈ (okNC (to_nc c8gdf none c8regions "t")).attrs
    ∧ (polyYName 1,
        AttVal.numList (([⟨7, 8⟩, ⟨9, 10⟩, ⟨11, 12⟩] : List Point).map (·.lat)))
      ∈ (okNC (to_nc c8gdf none c8regions "t")).attrs
    ∧ (([⟨7, 8⟩, ⟨9, 10⟩, ⟨11, 12⟩] : List Point).map (·.lon)).length
        = ([⟨7, 8⟩, ⟨9, 10⟩, ⟨11, 12⟩] : List Point).length
    ∧ (([⟨7, 8⟩, ⟨9, 10⟩, ⟨11, 12⟩] : List Point).map (·.lat)).length
        = ([⟨7, 8⟩, ⟨9, 10⟩, ⟨11, 12⟩] : List Point).length :=
  region_polygon_encoding.1 c8gdf none c8regions "t" _ 1
    [⟨7, 8⟩, ⟨9, 10⟩, ⟨11, 12⟩] rfl rfl

/-- transCol is the identity on values when unsigned data is in the
signed 32-bit range (and always for signed and float columns). -/
theorem transCol_values {c : Column}
    (h : c.dtype.isUnsigned = true → ∀ v ∈ c.values, 0 ≤ v ∧ v < 2 ^ 31) :
    (transCol c).values = c.values := by
  unfold transCol
  by_cases hu : c.dtype.isUnsigned
  · simp only [hu, if_true]
    have hid : ∀ v ∈ c.values, wrapInt32 v = v := fun v hv =>
      wrapInt32_eq_self (h hu v hv).1 (h hu v hv).2
    calc c.values.map wrapInt32 = c.values.map (fun v => v) :=
          List.map_congr_left hid
      _ = c.values := List.map_id' _
  · simp [hu]

/-- transCol never changes the number of rows. -/
theorem transCol_length (c : Column) :
    (transCol c).values.length = c.values.length := by
  unfold transCol
  by_cases hu : c.dtype.isUnsigned
  · simp [hu]
  · simp [hu]

/-- The to_nc loop body succeeds with the transformed variable whenever
the column name has a schema entry. -/
theorem ncVarOf_ok_of_schema {a : List (String × AttrEntry)}
    {p : String × Column}
    (h : ∃ e, listLookup p.1 a = some (.varAttrs e)) :
    ncVarOf a p = .ok (ncTransform a p) := by
  obtain ⟨e, he⟩ := h
  have hg : getVarAttrs a p.1 = .ok e := by
    unfold getVarAttrs
    rw [he]
  have hv : varAttrsOf a p.1 = e := by
    unfold varAttrsOf
    rw [he]
  unfold ncVarOf ncTransform
  rw [hg, hv]
  by_cases hu : p.2.dtype.isUnsigned
  · simp [hu]
  · simp [hu]

/-- The write_h5py loop body succeeds with the verbatim dataset whenever
the column name has a schema entry. -/
theorem h5DatasetOf_ok_of_schema {a : List (String × AttrEntry)}
    {p : String × Column}
    (h : ∃ e, listLookup p.1 a = some (.varAttrs e)) :
    h5DatasetOf a p = .ok (h5Transform a p) := by
  obtain ⟨e, he⟩ := h
  have hg : getVarAttrs a p.1 = .ok e := by
    unfold getVarAttrs
    rw [he]
  have hv : varAttrsOf a p.1 = e := by
    unfold varAttrsOf
    rw [he]
  unfold h5DatasetOf h5Transform
  rw [hg, hv]

/-- Assigning a fresh column makes it visible to lookup. -/
theorem listLookup_dfSet_self {l : List (String × Column)} {k : String}
    (c : Column) (h : k ∉ l.map Prod.fst) :
    listLookup k (dfSet l k c) = some c := by
  rw [dfSet_of_not_mem c h, listLookup_append, listLookup_eq_none k l h]
  simp [listLookup]

/-- The flattened DataFrame of a table without explicit latitude and
longitude columns is the table columns followed by the two appended
coordinate columns. -/
theorem dfOf_eq {gdf : GeoDataFrame}
    (hla : "latitude" ∉ gdf.columns.map Prod.fst)
    (hlo : "longitude" ∉ gdf.columns.map Prod.fst) :
    dfOf gdf =
      (gdf.columns ++ [("latitude", ⟨.float64, gdf.geometry.map (·.lat)⟩)])
        ++ [("longitude", ⟨.float64, gdf.geometry.map (·.lon)⟩)] := by
  unfold dfOf
  rw [dfSet_of_not_mem _ hla]
  rw [dfSet_of_not_mem _ ?hkeys]
  case hkeys =>
    rw [List.map_append]
    simp only [List.mem_append]
    push_neg
    exact ⟨hlo, by simp⟩

/-- The delta_time lookup of the writers sees through the appended
coordinate columns. -/
theorem listLookup_dfOf_delta (gdf : GeoDataFrame) :
    listLookup "delta_time" (dfOf gdf)
      = listLookup "delta_time" gdf.columns := by
  unfold dfOf
  rw [listLookup_dfSet_ne _ (by decide), listLookup_dfSet_ne _ (by decide)]

/-- The longitude column of the flattened DataFrame holds the geometry
x coordinates. -/
theorem listLookup_dfOf_lon {gdf : GeoDataFrame}
    (hla : "latitude" ∉ gdf.columns.map Prod.fst)
    (hlo : "longitude" ∉ gdf.columns.map Prod.fst) :
    listLookup "longitude" (dfOf gdf)
      = some ⟨.float64, gdf.geometry.map (·.lon)⟩ := by
  unfold dfOf
  rw [dfSet_of_not_mem _ hla]
  apply listLookup_dfSet_self
  rw [List.map_append]
  simp only [List.mem_append]
  push_neg
  exact ⟨hlo, by simp⟩

/-- The latitude column of the flattened DataFrame holds the geometry
y coordinates. -/
theorem listLookup_dfOf_lat {gdf : GeoDataFrame}
    (hla : "latitude" ∉ gdf.columns.map Prod.fst)
    (_hlo : "longitude" ∉ gdf.columns.map Prod.fst) :
    listLookup "latitude" (dfOf gdf)
      = some ⟨.float64, gdf.geometry.map (·.lat)⟩ := by
  unfold dfOf
  rw [listLookup_dfSet_ne _ (by decide)]
  exact listLookup_dfSet_self _ hla

/-- A squeezed array of any length other than one stays one-dimensional. -/
theorem squeezedToScalar_eq_false {l : List Int} (h : l.length ≠ 1) :
    squeezedToScalar l = false := by
  cases l with
  | nil => rfl
  | cons x xs =>
      cases xs with
      | nil => exact absurd rfl h
      | cons y ys => rfl

/-- Evaluation of the shared read tail when the stored delta_time data is
already sorted and the file holds more than one row (so no variable is
squeezed to a 0-d scalar): the sort permutation is the identity, so every
column is reproduced in storage order, the index is the reconstructed
time column, and the geometry is rebuilt from the coordinate columns. -/
theorem assembleGdf_of_sorted {ncin : List (String × Column)}
    {dtc lonc latc : Column} {geom : List Point}
    (hdt : listLookup "delta_time" ncin = some dtc)
    (hlon : listLookup "longitude" ncin = some lonc)
    (hlat : listLookup "latitude" ncin = some latc)
    (hlonv : lonc.values = geom.map (·.lon))
    (hlatv : latc.values = geom.map (·.lat))
    (hsort : dtc.values.Pairwise (· ≤ ·))
    (hlen : ∀ p ∈ ncin, p.2.values.length = dtc.values.length)
    (hgeo : geom.length = dtc.values.length)
    (hone : dtc.values.length ≠ 1) :
    assembleGdf ncin = .ok
      { index := dtc.values.map reconstructTime
        columns := ncin.filter
          (fun p => decide (¬(p.1 = "longitude" ∨ p.1 = "latitude")))
        geometry := geom } := by
  have htime : (dtc.values.map reconstructTime).Pairwise (· ≤ ·) := by
    rw [List.pairwise_map]
    exact hsort.imp (fun hab => reconstructTime_mono hab)
  have hperm : sortPerm (dtc.values.map reconstructTime)
      = List.range (dtc.values.map reconstructTime).length :=
    sortPerm_of_sorted htime
  have hn : (dtc.values.map reconstructTime).length = dtc.values.length :=
    List.length_map _ _
  have hcols : (ncin.filter
        (fun p => decide (¬(p.1 = "longitude" ∨ p.1 = "latitude")))).map
      (fun p => (p.1, Column.mk p.2.dtype
        (applyPerm (List.range (dtc.values.map reconstructTime).length)
          p.2.values)))
      = ncin.filter
          (fun p => decide (¬(p.1 = "longitude" ∨ p.1 = "latitude"))) := by
    have hstep : ∀ p ∈ ncin.filter
        (fun p => decide (¬(p.1 = "longitude" ∨ p.1 = "latitude"))),
        (p.1, Column.mk p.2.dtype
          (applyPerm (List.range (dtc.values.map reconstructTime).length)
            p.2.values)) = p := by
      intro p hp
      have hpl : p.2.values.length
          = (dtc.values.map reconstructTime).length := by
        rw [hn]
        exact hlen p (List.mem_filter.mp hp).1
      rw [applyPerm_range hpl]
    exact (List.map_congr_left hstep).trans (List.map_id' _)
  have hlonS : squeezedToScalar lonc.values = false := by
    apply squeezedToScalar_eq_false
    rw [hlonv, List.length_map, hgeo]
    exact hone
  have hlatS : squeezedToScalar latc.values = false := by
    apply squeezedToScalar_eq_false
    rw [hlatv, List.length_map, hgeo]
    exact hone
  have hanyS : (ncin.filter
      (fun p => decide (¬(p.1 = "longitude" ∨ p.1 = "latitude")))).any
      (fun p => squeezedToScalar p.2.values) = false := by
    rw [List.any_eq_false]
    intro p hp
    rw [squeezedToScalar_eq_false]
    · simp
    · rw [hlen p (List.mem_filter.mp hp).1]
      exact hone
  simp only [assembleGdf, hdt, hlon, hlat, hlonS, hlatS, hanyS, Bool.or_self,
    if_false]
  rw [hperm, hcols, applyPerm_range rfl, hlonv, hlatv, zipWith_lonlat,
    applyPermP_range (hgeo.trans hn.symm)]
  simp

/-- Claim C1 as the code has it: for a well-formed table (equal column
lengths, recognized column names, no explicit latitude or longitude
columns) with more than one row, whose unsigned columns fit the signed
32-bit range and whose delta_time column is sorted ascending, the classic
round trip through to_file and from_file with the nc format reproduces
the values of every column exactly and returns a timestamp index sorted
ascending.  When delta_time is not sorted the reader re-sorts the rows,
permuting every column, and a one-row table makes the reader raise after
squeeze collapses its variables to 0-d scalars (see the counterexample). -/
theorem classic_roundtrip (gdf : GeoDataFrame)
    (params : Option (List (String × AttVal))) (regions : List (List Point))
    (now driver : String) (dtc : Column)
    (hla : "latitude" ∉ gdf.columns.map Prod.fst)
    (hlo : "longitude" ∉ gdf.columns.map Prod.fst)
    (hschema : ∀ p ∈ gdf.columns,
       ∃ e, listLookup p.1 (get_attributes now) = some (.varAttrs e))
    (hdt : listLookup "delta_time" gdf.columns = some dtc)
    (hsort : dtc.values.Pairwise (· ≤ ·))
    (hlen : ∀ p ∈ gdf.columns, p.2.values.length = gdf.geometry.length)
    (hone : gdf.geometry.length ≠ 1)
    (hrange : ∀ p ∈ gdf.columns, p.2.dtype.isUnsigned = true →
       ∀ v ∈ p.2.values, 0 ≤ v ∧ v < 2 ^ 31) :
    ∃ f g, to_file gdf "nc" driver params regions now = .ok (some (.nc f))
      ∧ from_file (.nc f) "nc" driver = .ok (some g)
      ∧ g.columns.map (fun p => (p.1, p.2.values))
          = gdf.columns.map (fun p => (p.1, p.2.values))
      ∧ g.index.Pairwise (· ≤ ·) := by
  have hdfeq := dfOf_eq hla hlo
  have hdtmem : ("delta_time", dtc) ∈ gdf.columns := listLookup_mem hdt
  have hdtv : (transCol dtc).values = dtc.values :=
    transCol_values (hrange _ hdtmem)
  have hdtlen : dtc.values.length = gdf.geometry.length := hlen _ hdtmem
  have hforall : ∀ p ∈ dfOf gdf,
      ncVarOf (get_attributes now) p
        = .ok (ncTransform (get_attributes now) p) := by
    intro p hp
    apply ncVarOf_ok_of_schema
    rw [hdfeq] at hp
    rcases List.mem_append.mp hp with hp1 | hp2
    · rcases List.mem_append.mp hp1 with hp0 | hpl
      · exact hschema p hp0
      · have hpe : p = ("latitude", ⟨.float64, gdf.geometry.map (·.lat)⟩) := by
          simpa using hpl
        rw [hpe]
        exact ⟨_, rfl⟩
    · have hpe : p = ("longitude", ⟨.float64, gdf.geometry.map (·.lon)⟩) := by
        simpa using hp2
      rw [hpe]
      exact ⟨_, rfl⟩
  have hmapm : exceptMapM (ncVarOf (get_attributes now)) (dfOf gdf)
      = .ok ((dfOf gdf).map (ncTransform (get_attributes now))) :=
    exceptMapM_ok_of_forall _ _ _ hforall
  have hlookdf : listLookup "delta_time" (dfOf gdf) = some dtc := by
    rw [listLookup_dfOf_delta, hdt]
  have htonc : to_nc gdf params regions now = .ok
      { dims := [("delta_time", dtc.values.length)]
        vars := (dfOf gdf).map (ncTransform (get_attributes now))
        attrs := baseFileAttrs (get_attributes now) ++ paramAttrs params
                   ++ polyAttrs regions } := by
    simp only [to_nc, hlookdf, hmapm]
  have hncin : ((dfOf gdf).map (ncTransform (get_attributes now))).map
      (fun p => (p.1, Column.mk p.2.dtype p.2.values))
      = (dfOf gdf).map (fun p => (p.1, transCol p.2)) := by
    rw [List.map_map]
    rfl
  have hdt2 : listLookup "delta_time"
      ((dfOf gdf).map (fun p => (p.1, transCol p.2)))
      = some (transCol dtc) := by
    rw [listLookup_map (fun x c => transCol c), hlookdf]
    rfl
  have hlon2 : listLookup "longitude"
      ((dfOf gdf).map (fun p => (p.1, transCol p.2)))
      = some (transCol ⟨.float64, gdf.geometry.map (·.lon)⟩) := by
    rw [listLookup_map (fun x c => transCol c), listLookup_dfOf_lon hla hlo]
    rfl
  have hlat2 : listLookup "latitude"
      ((dfOf gdf).map (fun p => (p.1, transCol p.2)))
      = some (transCol ⟨.float64, gdf.geometry.map (·.lat)⟩) := by
    rw [listLookup_map (fun x c => transCol c), listLookup_dfOf_lat hla hlo]
    rfl
  have hlen2 : ∀ p ∈ (dfOf gdf).map (fun p => (p.1, transCol p.2)),
      p.2.values.length = (transCol dtc).values.length := by
    intro p hp
    obtain ⟨q, hq, hqe⟩ := List.mem_map.mp hp
    rw [← hqe]
    show (transCol q.2).values.length = (transCol dtc).values.length
    rw [transCol_length, transCol_length, hdtlen]
    rw [hdfeq] at hq
    rcases List.mem_append.mp hq with h1 | h2
    · rcases List.mem_append.mp h1 with h0 | hl
      · exact hlen q h0
      · have hpe : q = ("latitude", ⟨.float64, gdf.geometry.map (·.lat)⟩) := by
          simpa using hl
        rw [hpe]
        exact List.length_map _ _
    · have hpe : q = ("longitude", ⟨.float64, gdf.geometry.map (·.lon)⟩) := by
        simpa using h2
      rw [hpe]
      exact List.length_map _ _
  have hgeo2 : gdf.geometry.length = (transCol dtc).values.length := by
    rw [transCol_length, hdtlen]
  have hsort2 : (transCol dtc).values.Pairwise (· ≤ ·) := by
    rw [hdtv]
    exact hsort
  have hone2 : (transCol dtc).values.length ≠ 1 := by
    rw [transCol_length, hdtlen]
    exact hone
  have hasm := assembleGdf_of_sorted hdt2 hlon2 hlat2 rfl rfl hsort2 hlen2 hgeo2
    hone2
  have hfilter : ((dfOf gdf).map (fun p => (p.1, transCol p.2))).filter
      (fun p => decide (¬(p.1 = "longitude" ∨ p.1 = "latitude")))
      = gdf.columns.map (fun p => (p.1, transCol p.2)) := by
    rw [hdfeq, List.map_append, List.map_append, List.filter_append,
      List.filter_append]
    have hself : (gdf.columns.map (fun p => (p.1, transCol p.2))).filter
        (fun p => decide (¬(p.1 = "longitude" ∨ p.1 = "latitude")))
        = gdf.columns.map (fun p => (p.1, transCol p.2)) := by
      rw [List.filter_eq_self]
      intro q hq
      obtain ⟨r, hr, hre⟩ := List.mem_map.mp hq
      rw [← hre]
      simp only [decide_eq_true_eq]
      intro hor
      rcases hor with h1 | h1
      · exact hlo (h1 ▸ List.mem_map_of_mem Prod.fst hr)
      · exact hla (h1 ▸ List.mem_map_of_mem Prod.fst hr)
    rw [hself]
    simp
  refine ⟨{ dims := [("delta_time", dtc.values.length)]
            vars := (dfOf gdf).map (ncTransform (get_attributes now))
            attrs := baseFileAttrs (get_attributes now) ++ paramAttrs params
                       ++ polyAttrs regions },
          { index := dtc.values.map reconstructTime
            columns := gdf.columns.map (fun p => (p.1, transCol p.2))
            geometry := gdf.geometry },
          ?hto, ?hfrom, ?hvals, ?hsorted⟩
  case hto =>
    simp only [to_file]
    rw [if_neg (by decide), if_pos (by decide), htonc]
    rfl
  case hfrom =>
    simp only [from_file]
    rw [if_neg (by decide), if_pos (by decide)]
    show (from_nc _).map some = _
    unfold from_nc
    show (assembleGdf (((dfOf gdf).map (ncTransform (get_attributes now))).map
      (fun p => (p.1, Column.mk p.2.dtype p.2.values)))).map some = _
    rw [hncin, hasm, hdtv, hfilter]
    rfl
  case hvals =>
    rw [List.map_map]
    apply List.map_congr_left
    intro p hp
    show (p.1, (transCol p.2).values) = (p.1, p.2.values)
    rw [transCol_values (hrange p hp)]
  case hsorted =>
    rw [List.pairwise_map]
    exact hsort.imp (fun hab => reconstructTime_mono hab)

/-- Counterexample to C1 as stated: a table whose delta_time is not sorted
comes back with every column permuted into time order, so the h_mean
column values differ from the original even though every unsigned column
(vacuously) fits signed 32-bit; and a one-row table, which also satisfies
the claim's unsigned-range condition, does not round trip at all - the
read raises after squeeze collapses its variables to 0-d scalars. -/
theorem classic_roundtrip_counterexample :
    (from_file (okOut (to_file c1gdf "nc" "pytables" none [] "t")) "nc"
        "pytables").map
      (fun o => o.map (fun g => (listLookup "h_mean" g.columns).map (·.values)))
      = .ok (some (some [2, 1]))
    ∧ listLookup "h_mean" c1gdf.columns = some ⟨.float64, [1, 2]⟩
    ∧ ([2, 1] : List Int) ≠ [1, 2]
    ∧ from_file (okOut (to_file c1onerow "nc" "pytables" none [] "t")) "nc"
        "pytables" = .error "TypeError: iteration over a 0-d array" :=
  ⟨rfl, rfl, by decide, rfl⟩

/-- Witness for the amended C1 at a concrete sorted table with a uint32
column. -/
theorem classic_roundtrip_witness :
    ∃ f g, to_file c1wgdf "nc" "pytables" none [] "t" = .ok (some (.nc f))
      ∧ from_file (.nc f) "nc" "pytables" = .ok (some g)
      ∧ g.columns.map (fun p => (p.1, p.2.values))
          = c1wgdf.columns.map (fun p => (p.1, p.2.values))
      ∧ g.index.Pairwise (· ≤ ·) := by
  refine classic_roundtrip c1wgdf none [] "t" "pytables"
    ⟨.float64, [0, 86400]⟩ (by decide) (by decide) ?hschema rfl (by decide)
    ?hlen (by decide) ?hrange
  case hschema =>
    intro p hp
    simp only [c1wgdf, List.mem_cons] at hp
    rcases hp with h | h | h
    · rw [h]; exact ⟨_, rfl⟩
    · rw [h]; exact ⟨_, rfl⟩
    · simp at h
  case hlen =>
    intro p hp
    simp only [c1wgdf, List.mem_cons] at hp
    rcases hp with h | h | h
    · rw [h]; rfl
    · rw [h]; rfl
    · simp at h
  case hrange =>
    intro p hp
    simp only [c1wgdf, List.mem_cons] at hp
    rcases hp with h | h | h
    · rw [h]; intro hu; exact absurd hu (by decide)
    · rw [h]
      intro hu v hv
      simp only [List.mem_cons] at hv
      rcases hv with h2 | h2 | h2
      · rw [h2]; exact ⟨by decide, by decide⟩
      · rw [h2]; exact ⟨by decide, by decide⟩
      · simp at h2
    · simp at h

/-- The pytables drop of the coordinate columns gives back the table
columns when the table had no explicit latitude or longitude column. -/
theorem filter_dfOf_latlon {gdf : GeoDataFrame}
    (hla : "latitude" ∉ gdf.columns.map Prod.fst)
    (hlo : "longitude" ∉ gdf.columns.map Prod.fst) :
    (dfOf gdf).filter
      (fun p => decide (¬(p.1 = "latitude" ∨ p.1 = "longitude")))
      = gdf.columns := by
  rw [dfOf_eq hla hlo, List.filter_append, List.filter_append]
  have hself : gdf.columns.filter
      (fun p => decide (¬(p.1 = "latitude" ∨ p.1 = "longitude")))
      = gdf.columns := by
    rw [List.filter_eq_self]
    intro q hq
    simp only [decide_eq_true_eq]
    intro hor
    rcases hor with h1 | h1
    · exact hla (h1 ▸ List.mem_map_of_mem Prod.fst hq)
    · exact hlo (h1 ▸ List.mem_map_of_mem Prod.fst hq)
  rw [hself]
  simp

/-- Claim C2 as the code has it.  Variant A (pytables) reproduces the
table identically — columns, geometry, and the original index, which is
preserved as stored rather than rebuilt or sorted.  Variant B (h5py)
reproduces every column exactly (no downcast) and returns a sorted
reconstructed timestamp index, provided the table is well formed with
more than one row and its delta_time column is sorted ascending; an
unsorted delta_time permutes the columns, and a one-row table makes
read_h5py raise after squeeze collapses its datasets to 0-d scalars (see
the counterexample). -/
theorem hierarchical_roundtrip (gdf : GeoDataFrame)
    (params : Option (List (String × AttVal))) (regions : List (List Point))
    (now : String) (dtc : Column)
    (hla : "latitude" ∉ gdf.columns.map Prod.fst)
    (hlo : "longitude" ∉ gdf.columns.map Prod.fst) :
    (∃ F, to_file gdf "hdf" "pytables" params regions now
            = .ok (some (.hdf (.pt F)))
       ∧ from_file (.hdf (.pt F)) "hdf" "pytables" = .ok (some gdf))
    ∧ ((∀ p ∈ gdf.columns,
          ∃ e, listLookup p.1 (get_attributes now) = some (.varAttrs e)) →
       listLookup "delta_time" gdf.columns = some dtc →
       dtc.values.Pairwise (· ≤ ·) →
       (∀ p ∈ gdf.columns, p.2.values.length = gdf.geometry.length) →
       gdf.geometry.length ≠ 1 →
       ∃ H g2, to_file gdf "hdf" "h5py" params regions now
            = .ok (some (.hdf (.h5 H)))
         ∧ from_file (.hdf (.h5 H)) "hdf" "h5py" = .ok (some g2)
         ∧ (∀ k c, listLookup k gdf.columns = some c →
              listLookup k g2.columns = some c)
         ∧ g2.index.Pairwise (· ≤ ·)) := by
  constructor
  · refine ⟨write_pytables ⟨gdf.index, dfOf gdf⟩ (get_attributes now)
      params regions, ?ha1, ?ha2⟩
    case ha1 =>
      simp only [to_file]
      rw [if_pos (by decide)]
      simp only [to_hdf]
      rw [if_pos (by decide)]
      rfl
    case ha2 =>
      simp only [from_file]
      rw [if_pos (by decide)]
      show from_hdf (.pt _) "pytables" = _
      simp only [from_hdf]
      rw [if_pos (by decide)]
      have hrp : read_pytables (write_pytables ⟨gdf.index, dfOf gdf⟩
          (get_attributes now) params regions) = .ok gdf := by
        simp only [read_pytables, write_pytables,
          listLookup_dfOf_lon hla hlo, listLookup_dfOf_lat hla hlo]
        rw [filter_dfOf_latlon hla hlo]
        show Except.ok (GeoDataFrame.mk gdf.index gdf.columns
          (List.zipWith (fun x y => Point.mk x y)
            (gdf.geometry.map (·.lon)) (gdf.geometry.map (·.lat)))) = _
        rw [zipWith_lonlat]
      rw [hrp]
      rfl
  · intro hschema hdt hsort hlen hone
    have hdfeq := dfOf_eq hla hlo
    have hdtmem : ("delta_time", dtc) ∈ gdf.columns := listLookup_mem hdt
    have hdtlen : dtc.values.length = gdf.geometry.length := hlen _ hdtmem
    have hlookdf : listLookup "delta_time" (dfOf gdf) = some dtc := by
      rw [listLookup_dfOf_delta, hdt]
    have hforall : ∀ p ∈ (dfOf gdf).filter
        (fun p => decide (p.1 ≠ "delta_time")),
        h5DatasetOf (get_attributes now) p
          = .ok (h5Transform (get_attributes now) p) := by
      intro p hp
      apply h5DatasetOf_ok_of_schema
      have hp2 := (List.mem_filter.mp hp).1
      rw [hdfeq] at hp2
      rcases List.mem_append.mp hp2 with h1 | h2
      · rcases List.mem_append.mp h1 with h0 | hl
        · exact hschema p h0
        · have hpe : p = ("latitude", ⟨.float64, gdf.geometry.map (·.lat)⟩) := by
            simpa using hl
          rw [hpe]
          exact ⟨_, rfl⟩
      · have hpe : p = ("longitude", ⟨.float64, gdf.geometry.map (·.lon)⟩) := by
          simpa using h2
        rw [hpe]
        exact ⟨_, rfl⟩
    have hmapm : exceptMapM (h5DatasetOf (get_attributes now))
        ((dfOf gdf).filter (fun p => decide (p.1 ≠ "delta_time")))
        = .ok (((dfOf gdf).filter (fun p => decide (p.1 ≠ "delta_time"))).map
            (h5Transform (get_attributes now))) :=
      exceptMapM_ok_of_forall _ _ _ hforall
    have hda : getVarAttrs (get_attributes now) "delta_time"
        = .ok [("units", .str "seconds since 2018-01-01"),
               ("long_name", .str "Elapsed GPS seconds"),
               ("standard_name", .str "time"),
               ("calendar", .str "standard"),
               ("coordinates", .str "latitude longitude")] := rfl
    have hw : write_h5py ⟨gdf.index, dfOf gdf⟩ (get_attributes now)
        params regions = .ok
        { datasets := ("delta_time", ⟨dtc.dtype, dtc.values,
            [("units", .str "seconds since 2018-01-01"),
             ("long_name", .str "Elapsed GPS seconds"),
             ("standard_name", .str "time"),
             ("calendar", .str "standard"),
             ("coordinates", .str "latitude longitude")]⟩) ::
            ((dfOf gdf).filter (fun p => decide (p.1 ≠ "delta_time"))).map
              (h5Transform (get_attributes now))
          attrs := baseFileAttrs (get_attributes now) ++ paramAttrs params
                     ++ polyAttrs regions } := by
      simp only [write_h5py, hlookdf, hda, hmapm]
    have hncin2 : (((dfOf gdf).filter
        (fun p => decide (p.1 ≠ "delta_time"))).map
          (h5Transform (get_attributes now))).map
            (fun p => (p.1, Column.mk p.2.dtype p.2.values))
        = (dfOf gdf).filter (fun p => decide (p.1 ≠ "delta_time")) := by
      rw [List.map_map]
      exact List.map_id' _
    have hdt3 : listLookup "delta_time"
        (("delta_time", Column.mk dtc.dtype dtc.values) ::
          (dfOf gdf).filter (fun p => decide (p.1 ≠ "delta_time")))
        = some dtc := by
      simp [listLookup]
    have hlon3 : listLookup "longitude"
        (("delta_time", Column.mk dtc.dtype dtc.values) ::
          (dfOf gdf).filter (fun p => decide (p.1 ≠ "delta_time")))
        = some ⟨.float64, gdf.geometry.map (·.lon)⟩ := by
      have hne : ¬ ("delta_time" = "longitude") := by decide
      simp only [listLookup, if_neg hne]
      rw [listLookup_filter (fun s => decide (s ≠ "delta_time")) _ _ (by decide)]
      exact listLookup_dfOf_lon hla hlo
    have hlat3 : listLookup "latitude"
        (("delta_time", Column.mk dtc.dtype dtc.values) ::
          (dfOf gdf).filter (fun p => decide (p.1 ≠ "delta_time")))
        = some ⟨.float64, gdf.geometry.map (·.lat)⟩ := by
      have hne : ¬ ("delta_time" = "latitude") := by decide
      simp only [listLookup, if_neg hne]
      rw [listLookup_filter (fun s => decide (s ≠ "delta_time")) _ _ (by decide)]
      exact listLookup_dfOf_lat hla hlo
    have hlen3 : ∀ p ∈ ("delta_time", Column.mk dtc.dtype dtc.values) ::
        (dfOf gdf).filter (fun p => decide (p.1 ≠ "delta_time")),
        p.2.values.length = dtc.values.length := by
      intro p hp
      rcases List.mem_cons.mp hp with he | hm
      · rw [he]
      · have hq := (List.mem_filter.mp hm).1
        rw [hdtlen]
        rw [hdfeq] at hq
        rcases List.mem_append.mp hq with h1 | h2
        · rcases List.mem_append.mp h1 with h0 | hl
          · exact hlen p h0
          · have hpe : p = ("latitude", ⟨.float64, gdf.geometry.map (·.lat)⟩) := by
              simpa using hl
            rw [hpe]
            exact List.length_map _ _
        · have hpe : p = ("longitude", ⟨.float64, gdf.geometry.map (·.lon)⟩) := by
            simpa using h2
          rw [hpe]
          exact List.length_map _ _
    have hasm2 := assembleGdf_of_sorted hdt3 hlon3 hlat3 rfl rfl hsort hlen3
      hdtlen.symm (by rw [hdtlen]; exact hone)
    have hfiltB : (("delta_time", Column.mk dtc.dtype dtc.values) ::
        (dfOf gdf).filter (fun p => decide (p.1 ≠ "delta_time"))).filter
          (fun p => decide (¬(p.1 = "longitude" ∨ p.1 = "latitude")))
        = ("delta_time", Column.mk dtc.dtype dtc.values) ::
            gdf.columns.filter (fun p => decide (p.1 ≠ "delta_time")) := by
      rw [List.filter_cons]
      rw [if_pos (by simp)]
      congr 1
      rw [hdfeq, List.filter_append, List.filter_append, List.filter_append,
        List.filter_append]
      have hself : (gdf.columns.filter
          (fun p => decide (p.1 ≠ "delta_time"))).filter
          (fun p => decide (¬(p.1 = "longitude" ∨ p.1 = "latitude")))
          = gdf.columns.filter (fun p => decide (p.1 ≠ "delta_time")) := by
        rw [List.filter_eq_self]
        intro q hq
        have hq2 := (List.mem_filter.mp hq).1
        simp only [decide_eq_true_eq]
        intro hor
        rcases hor with h1 | h1
        · exact hlo (h1 ▸ List.mem_map_of_mem Prod.fst hq2)
        · exact hla (h1 ▸ List.mem_map_of_mem Prod.fst hq2)
      rw [hself]
      simp
    refine ⟨⟨("delta_time", ⟨dtc.dtype, dtc.values,
               [("units", .str "seconds since 2018-01-01"),
                ("long_name", .str "Elapsed GPS seconds"),
                ("standard_name", .str "time"),
                ("calendar", .str "standard"),
                ("coordinates", .str "latitude longitude")]⟩) ::
               ((dfOf gdf).filter (fun p => decide (p.1 ≠ "delta_time"))).map
                 (h5Transform (get_attributes now)),
             baseFileAttrs (get_attributes now) ++ paramAttrs params
               ++ polyAttrs regions⟩,
        ⟨dtc.values.map reconstructTime,
        ("delta_time", Column.mk dtc.dtype dtc.values) ::
          gdf.columns.filter (fun p => decide (p.1 ≠ "delta_time")),
        gdf.geometry⟩, ?hb1, ?hb2, ?hb3, ?hb4⟩
    case hb1 =>
      simp only [to_file]
      rw [if_pos (by decide)]
      simp only [to_hdf]
      rw [if_neg (by decide), if_pos (by decide)]
      rw [hw]
      rfl
    case hb2 =>
      simp only [from_file]
      rw [if_pos (by decide)]
      show from_hdf (.h5 _) "h5py" = _
      simp only [from_hdf]
      rw [if_neg (by decide), if_pos (by decide)]
      show (read_h5py _).map some = _
      unfold read_h5py
      show (assembleGdf ((("delta_time", H5Dataset.mk dtc.dtype dtc.values
          [("units", .str "seconds since 2018-01-01"),
           ("long_name", .str "Elapsed GPS seconds"),
           ("standard_name", .str "time"),
           ("calendar", .str "standard"),
           ("coordinates", .str "latitude longitude")]) ::
          ((dfOf gdf).filter (fun p => decide (p.1 ≠ "delta_time"))).map
            (h5Transform (get_attributes now))).map
            (fun p => (p.1, Column.mk p.2.dtype p.2.values)))).map some = _
      rw [List.map_cons, hncin2]
      show (assembleGdf (("delta_time", Column.mk dtc.dtype dtc.values) ::
        (dfOf gdf).filter (fun p => decide (p.1 ≠ "delta_time")))).map some = _
      rw [hasm2, hfiltB]
      rfl
    case hb3 =>
      intro k c hk
      by_cases hkd : k = "delta_time"
      · subst hkd
        rw [hdt] at hk
        injection hk with hk2
        subst hk2
        show listLookup "delta_time" (("delta_time", Column.mk dtc.dtype
          dtc.values) :: _) = _
        simp [listLookup]
      · show listLookup k (("delta_time", Column.mk dtc.dtype dtc.values) ::
          gdf.columns.filter (fun p => decide (p.1 ≠ "delta_time"))) = some c
        have hne : ¬ ("delta_time" = k) := fun hh => hkd hh.symm
        simp only [listLookup, if_neg hne]
        rw [listLookup_filter (fun s => decide (s ≠ "delta_time")) _ _
          (by simp [hkd])]
        exact hk
    case hb4 =>
      rw [List.pairwise_map]
      exact hsort.imp (fun hab => reconstructTime_mono hab)

/-- Counterexample to C2 as stated: the pytables round trip preserves the
stored index unsorted (no timestamp index is rebuilt), the h5py round
trip of a table with unsorted delta_time returns the h_mean column
permuted, and the h5py round trip of a one-row table raises after squeeze
collapses its datasets to 0-d scalars. -/
theorem hierarchical_roundtrip_counterexample :
    (from_file (okOut (to_file c2gdf "hdf" "pytables" none [] "t")) "hdf"
        "pytables").map (fun o => o.map (fun g => g.index))
      = .ok (some [5, 3])
    ∧ ¬ ([5, 3] : List Int).Pairwise (· ≤ ·)
    ∧ (from_file (okOut (to_file c2gdf "hdf" "h5py" none [] "t")) "hdf"
        "h5py").map
        (fun o => o.map (fun g => (listLookup "h_mean" g.columns).map (·.values)))
      = .ok (some (some [2, 1]))
    ∧ listLookup "h_mean" c2gdf.columns = some ⟨.float64, [1, 2]⟩
    ∧ ([2, 1] : List Int) ≠ [1, 2]
    ∧ from_file (okOut (to_file c1onerow "hdf" "h5py" none [] "t")) "hdf"
        "h5py" = .error "TypeError: iteration over a 0-d array" := by
  refine ⟨rfl, ?hp, rfl, rfl, by decide, rfl⟩
  intro hpw
  have := (List.pairwise_cons.mp hpw).1 3 (by simp)
  omega

/-- Witness for the amended C2 at a concrete sorted table. -/
theorem hierarchical_roundtrip_witness :
    (∃ F, to_file c1wgdf "hdf" "pytables" none [] "t"
            = .ok (some (.hdf (.pt F)))
       ∧ from_file (.hdf (.pt F)) "hdf" "pytables" = .ok (some c1wgdf))
    ∧ (∃ H g2, to_file c1wgdf "hdf" "h5py" none [] "t"
            = .ok (some (.hdf (.h5 H)))
       ∧ from_file (.hdf (.h5 H)) "hdf" "h5py" = .ok (some g2)
       ∧ (∀ k c, listLookup k c1wgdf.columns = some c →
            listLookup k g2.columns = some c)
       ∧ g2.index.Pairwise (· ≤ ·)) := by
  constructor
  · exact (hierarchical_roundtrip c1wgdf none [] "t" ⟨.float64, [0, 86400]⟩
      (by decide) (by decide)).1
  · refine (hierarchical_roundtrip c1wgdf none [] "t" ⟨.float64, [0, 86400]⟩
      (by decide) (by decide)).2 ?hs rfl (by decide) ?hl (by decide)
    case hs =>
      intro p hp
      simp only [c1wgdf, List.mem_cons] at hp
      rcases hp with h | h | h
      · rw [h]; exact ⟨_, rfl⟩
      · rw [h]; exact ⟨_, rfl⟩
      · simp at h
    case hl =>
      intro p hp
      simp only [c1wgdf, List.mem_cons] at hp
      rcases hp with h | h | h
      · rw [h]; rfl
      · rw [h]; rfl
      · simp at h

end SlideRule
